import Mathlib

/-!
Verification of the memory-quantum store of the TAKAWASI unified agent.

The Python sources `memory_quantum_core.py` (class `MemoryQuantumCore`) and
`memory_quantum_core_complete.py` (class `MemoryQuantumCoreComplete`) are
shallowly embedded below.  Conventions of the embedding:

* Python floats are modelled as rationals (`ℚ`); all the constants involved
  (0.4, 0.3, 1.1, ...) are exact decimals, and none of the claims hinges on
  IEEE rounding.
* `datetime` values are modelled as natural-number epoch seconds; a
  `timedelta.days` computation becomes truncated division by 86400.
* Python dicts are modelled as insertion-ordered association lists, which is
  exactly the observable behaviour of `dict` (ordered iteration, in-place
  value update, append on fresh key).
* Python sets of strings are modelled as duplicate-free lists; sums and
  counts over them are order-independent.
* `list.sort` / `sorted` (always stable in Python) and the deterministic
  SQLite `ORDER BY` scans are modelled by the stable `List.insertionSort`.
* `hashlib.md5` / `hashlib.sha256` digests are environment parameters
  (arbitrary functions `String → String`): every theorem below holds for
  every choice of digest function, and counterexamples instantiate one.
  Likewise `math.sqrt` (used only inside cosine similarity) is an arbitrary
  function parameter, and the database-dependent helpers
  `_perform_tsl_analysis` / `_find_related_quantums` of the complete store
  (whose outputs only land in `meta_information` / `associated_quantums`,
  never inspected by any claim) are environment parameters.
-/

/-! ## String and dict primitives -/

/-- Lowercase a string character-wise (models `str.lower`). -/
def strLower (s : String) : String := String.mk (s.toList.map Char.toLower)

/-- Uppercase a string character-wise (models `str.upper`). -/
def strUpper (s : String) : String := String.mk (s.toList.map Char.toUpper)

/-- Take the first `n` characters (models `s[:n]`). -/
def strTake (n : ℕ) (s : String) : String := String.mk (s.toList.take n)

/-- Word character in the sense of the regex `\w` (ASCII view). -/
def isWordChar (c : Char) : Bool := c.isAlphanum || c == '_'

/-- Maximal runs of characters satisfying `p`; the accumulator holds the
current run reversed. -/
def runsByAux (p : Char → Bool) : List Char → List Char → List String
  | [], acc => if acc.isEmpty then [] else [String.mk acc.reverse]
  | c :: cs, acc =>
    if p c then runsByAux p cs (c :: acc)
    else if acc.isEmpty then runsByAux p cs []
    else String.mk acc.reverse :: runsByAux p cs []

/-- Maximal runs of characters satisfying `p` in `s`. -/
def runsBy (p : Char → Bool) (s : String) : List String := runsByAux p s.toList []

/-- Models `re.findall(r'\b\w+\b', s)`: the maximal runs of word characters. -/
def wordRuns (s : String) : List String := runsBy isWordChar s

/-- Models Python `s.split()` with no argument: maximal non-whitespace runs. -/
def splitWs (s : String) : List String := runsBy (fun c => !c.isWhitespace) s

/-- Substring test, models Python `pat in s` and SQL `s LIKE '%pat%'`
(after appropriate lowering). -/
def strContainsStr (s pat : String) : Bool :=
  s.toList.tails.any (fun t => pat.toList.isPrefixOf t)

/-- First-occurrence deduplication; models iterating a Python `set` built
from a list (one representative per element, order fixed by first
occurrence — any fixed order is sound because every use is
order-independent). -/
def distinctAux (seen : List String) : List String → List String
  | [] => []
  | a :: l => if a ∈ seen then distinctAux seen l else a :: distinctAux (a :: seen) l

/-- Duplicate-free list of the elements of `l`, first occurrences first. -/
def distinct (l : List String) : List String := distinctAux [] l

/-- Size of the intersection of two string sets given as duplicate-free
lists (models `len(a & b)` for Python sets). -/
def interCount (a b : List String) : ℕ := (a.filter (fun s => decide (s ∈ b))).length

/-- Dict write `d[k] = v`: update in place if the key exists, else append. -/
def dictSet {α : Type} : List (String × α) → String → α → List (String × α)
  | [], k, v => [(k, v)]
  | (k', v') :: l, k, v =>
    if k' = k then (k, v) :: l else (k', v') :: dictSet l k v

/-- Dict counter bump `d[w] = d.get(w, 0) + 1`. -/
def dictIncr : List (String × ℕ) → String → List (String × ℕ)
  | [], w => [(w, 1)]
  | (k, v) :: l, w =>
    if k = w then (k, v + 1) :: l else (k, v) :: dictIncr l w

/-- Dict lookup with default 0 (models `d[k]` on a key known to exist, and
is only applied to such keys). -/
def lookupD (e : List (String × ℚ)) (k : String) : ℚ := ((e.lookup k).getD 0)

/-- Days elapsed between two epoch-second timestamps
(models `(now - last).days`). -/
def daysBetween (now last : ℕ) : ℕ := (now - last) / 86400

/-- Models `json.dumps(tags)` for a list of (quote-free) tag strings. -/
def jsonStrList (tags : List String) : String :=
  "[" ++ String.intercalate ", " (tags.map (fun t => "\x22" ++ t ++ "\x22")) ++ "]"

/-! ### Facts about the primitives -/

theorem mem_distinctAux {a : String} {seen l : List String} :
    a ∈ distinctAux seen l ↔ a ∈ l ∧ a ∉ seen := by
  induction l generalizing seen with
  | nil => simp [distinctAux]
  | cons b l ih =>
    by_cases hb : b ∈ seen
    · simp only [distinctAux, if_pos hb, ih, List.mem_cons]
      constructor
      · rintro ⟨h1, h2⟩; exact ⟨Or.inr h1, h2⟩
      · rintro ⟨h1 | h1, h2⟩
        · exact absurd (h1 ▸ hb) h2
        · exact ⟨h1, h2⟩
    · simp only [distinctAux, if_neg hb, List.mem_cons, ih]
      by_cases hab : a = b
      · subst hab; simp [hb]
      · tauto

theorem mem_distinct {a : String} {l : List String} :
    a ∈ distinct l ↔ a ∈ l := by
  simp [distinct, mem_distinctAux]

theorem nodup_distinctAux (seen l : List String) :
    (distinctAux seen l).Nodup := by
  induction l generalizing seen with
  | nil => simp [distinctAux]
  | cons b l ih =>
    by_cases hb : b ∈ seen
    · simpa [distinctAux, if_pos hb] using ih seen
    · simp only [distinctAux, if_neg hb, List.nodup_cons]
      refine ⟨fun hc => ?_, ih (b :: seen)⟩
      exact (mem_distinctAux.1 hc).2 (List.mem_cons_self _ _)

theorem nodup_distinct (l : List String) : (distinct l).Nodup :=
  nodup_distinctAux [] l

/-! ## `memory_quantum_core.py` — class `MemoryQuantumCore` -/

namespace MemoryQuantumCore

/-- The `MemoryQuantum` dataclass of `memory_quantum_core.py`. -/
structure MemoryQuantum where
  id : String
  content : String
  content_type : String
  relevance_score : ℚ
  access_count : ℕ
  created_at : ℕ
  last_accessed : ℕ
  tags : List String
  relationships : List String
  context_hash : String
  importance_weight : ℚ
deriving DecidableEq

/-- Instance settings fixed in `__init__` (`max_memory_size`,
`relevance_threshold`, `consolidation_interval`). -/
structure Config where
  max_memory_size : ℕ
  relevance_threshold : ℚ
  consolidation_interval : ℕ
deriving DecidableEq

/-- The defaults set in `__init__`. -/
def defaultConfig : Config :=
  { max_memory_size := 10000, relevance_threshold := 3/10, consolidation_interval := 100 }

/-- Mutable state of a `MemoryQuantumCore` instance: the in-memory
`quantum_cache` dict (insertion-ordered), the `memory_quantums` table and
the `access_patterns` table of the SQLite database. -/
structure CoreState where
  cache : List MemoryQuantum
  db : List MemoryQuantum
  access_patterns : List (String × ℕ × String)
deriving DecidableEq

/-- Environment: the `hashlib.md5(...).hexdigest()` digest, abstract. -/
structure Env where
  md5 : String → String

/-- The `type_multipliers` table of `_calculate_initial_relevance`. -/
def type_multiplier (content_type : String) : ℚ :=
  if content_type = "task_result" then 12/10
  else if content_type = "error_log" then 11/10
  else if content_type = "success_pattern" then 13/10
  else if content_type = "user_preference" then 14/10
  else if content_type = "system_config" then 11/10
  else if content_type = "general" then 1
  else 1

/-- `_calculate_initial_relevance`: base 0.5 plus length and tag bonuses,
times the content-type multiplier, clamped above by 1. -/
def calculate_initial_relevance (content : String) (content_type : String)
    (tags : List String) : ℚ :=
  let base : ℚ := 1/2
  let length_bonus := min ((content.length : ℚ) / 1000) (2/10)
  let tag_bonus := min ((tags.length : ℚ) * (5/100)) (15/100)
  min ((base + length_bonus + tag_bonus) * type_multiplier content_type) 1

/-- Dict write `self.quantum_cache[id] = q` (update in place or append). -/
def cacheInsert : List MemoryQuantum → MemoryQuantum → List MemoryQuantum
  | [], q => [q]
  | p :: l, q => if p.id = q.id then q :: l else p :: cacheInsert l q

/-- SQL `INSERT OR REPLACE` into `memory_quantums` keyed by `id`. -/
def dbUpsert : List MemoryQuantum → MemoryQuantum → List MemoryQuantum
  | [], q => [q]
  | p :: l, q => if p.id = q.id then q :: l else p :: dbUpsert l q

/-- Composite score used by `_consolidate_memory` to rank the cache:
`rel*0.6 + (access_count/100)*0.2 + (1/max(days_since_access,1))*0.2`.
Note there is no cap on the access-count term. -/
def consolidate_score (now : ℕ) (q : MemoryQuantum) : ℚ :=
  q.relevance_score * (6/10) + ((q.access_count : ℚ) / 100) * (2/10) +
    (1 / (max (daysBetween now q.last_accessed) 1 : ℚ)) * (2/10)

/-- `_consolidate_memory`: if the cache exceeds `max_memory_size`, rank it
by `consolidate_score` (stable descending sort), keep the top
`max_memory_size`; of the rest, delete from the cache exactly the records
with `relevance_score < relevance_threshold` and write their decayed score
`rel*0.8` back to the database row (`_update_quantum_relevance`). -/
def consolidate_memory (cfg : Config) (now : ℕ) (st : CoreState) : CoreState :=
  if st.cache.length ≤ cfg.max_memory_size then st
  else
    let sorted := List.insertionSort
      (fun a b => consolidate_score now b ≤ consolidate_score now a) st.cache
    let toRemove := sorted.drop cfg.max_memory_size
    let removed := toRemove.filter (fun q => decide (q.relevance_score < cfg.relevance_threshold))
    let removedIds := removed.map (·.id)
    { cache := st.cache.filter (fun q => decide (q.id ∉ removedIds)),
      db := st.db.map (fun r =>
        match removed.find? (fun q => q.id == r.id) with
        | some q => { r with relevance_score := q.relevance_score * (8/10) }
        | none => r),
      access_patterns := st.access_patterns }

/-- `store_memory_quantum`: build the id `mq_<timestamp>_<md5(content)[:8]>`,
compute the initial relevance, create the quantum with `access_count = 1`,
upsert it into the database, insert it into the cache, and trigger
`_consolidate_memory` when the cache has grown past
`consolidation_interval`.  `ts` is the `%Y%m%d_%H%M%S_%f`-formatted call
time and `context_hash` the md5 of the JSON-dumped context. -/
def store_memory_quantum (env : Env) (cfg : Config) (now : ℕ) (ts : String)
    (content : String) (content_type : String) (tags : List String)
    (context_hash : String) (st : CoreState) : String × CoreState :=
  let quantum_id := "mq_" ++ ts ++ "_" ++ strTake 8 (env.md5 content)
  let relevance := calculate_initial_relevance content content_type tags
  let q : MemoryQuantum :=
    { id := quantum_id, content := content, content_type := content_type,
      relevance_score := relevance, access_count := 1, created_at := now,
      last_accessed := now, tags := tags, relationships := [],
      context_hash := context_hash, importance_weight := 1 }
  let st1 : CoreState :=
    { cache := cacheInsert st.cache q, db := dbUpsert st.db q,
      access_patterns := st.access_patterns }
  let st2 := if cfg.consolidation_interval < st1.cache.length
    then consolidate_memory cfg now st1 else st1
  (quantum_id, st2)

/-- `_calculate_similarity` between a query term set and a quantum. -/
def calculate_similarity (now : ℕ) (query_terms : List String)
    (q : MemoryQuantum) : ℚ :=
  let content_terms := distinct (splitWs (strLower q.content))
  let tag_terms := distinct (q.tags.map strLower)
  let denom : ℚ := (max query_terms.length 1 : ℕ)
  let content_overlap := (interCount query_terms content_terms : ℚ) / denom
  let tag_overlap := (interCount query_terms tag_terms : ℚ) / denom
  let access_bonus := min ((q.access_count : ℚ) / 10) (2/10)
  let recency_bonus :=
    max 0 (1/10 - (daysBetween now q.last_accessed : ℚ) * (1/100))
  min (content_overlap * (6/10) + tag_overlap * (3/10) + access_bonus + recency_bonus) 1

/-- Bump of a cache/database record performed by `_record_access`:
`access_count += 1`, `last_accessed = now`. -/
def bumpAccess (now : ℕ) (q : MemoryQuantum) : MemoryQuantum :=
  { q with access_count := q.access_count + 1, last_accessed := now }

/-- `_record_access`: append to the `access_patterns` table and, when the
id is cached, bump the cache entry and the matching database row. -/
def record_access (now : ℕ) (quantum_id : String) (query_context : String)
    (st : CoreState) : CoreState :=
  let st := { st with
    access_patterns := st.access_patterns ++ [(quantum_id, now, query_context)] }
  if st.cache.any (fun q => q.id == quantum_id) then
    { cache := st.cache.map (fun q =>
        if q.id = quantum_id then bumpAccess now q else q),
      db := st.db.map (fun r =>
        if r.id = quantum_id then bumpAccess now r else r),
      access_patterns := st.access_patterns }
  else st

/-- Result dict produced by `search_memory_quantums`. -/
structure SearchResult where
  quantum_id : String
  content : String
  content_type : String
  relevance_score : ℚ
  similarity_score : ℚ
  tags : List String
  last_accessed : ℕ
  access_count : ℕ
deriving DecidableEq

/-- Result dict built from a quantum (fields read before the access bump). -/
def mkResult (sim : ℚ) (q : MemoryQuantum) : SearchResult :=
  { quantum_id := q.id, content := q.content, content_type := q.content_type,
    relevance_score := q.relevance_score, similarity_score := sim,
    tags := q.tags, last_accessed := q.last_accessed,
    access_count := q.access_count }

/-- The `content_type and quantum.content_type != content_type` guard
(`None` and the empty string are both falsy). -/
def ctypeSkips (ctype : Option String) (q : MemoryQuantum) : Prop :=
  match ctype with
  | none => False
  | some t => t ≠ "" ∧ q.content_type ≠ t

instance (ctype : Option String) (q : MemoryQuantum) : Decidable (ctypeSkips ctype q) := by
  unfold ctypeSkips; cases ctype <;> infer_instance

/-- The cache loop of `search_memory_quantums`: walk the cache dict in
insertion order; for each type-matching quantum whose similarity reaches
the threshold, emit a result dict (from pre-bump field values) and run
`_record_access` on the live state. -/
def searchLoop (now : ℕ) (θ : ℚ) (query_terms : List String) (query : String)
    (ctype : Option String) :
    List MemoryQuantum → CoreState → List SearchResult × CoreState
  | [], st => ([], st)
  | q :: rest, st =>
    if ctypeSkips ctype q then searchLoop now θ query_terms query ctype rest st
    else
      let sim := calculate_similarity now query_terms q
      if θ ≤ sim then
        let st1 := record_access now q.id query st
        let rest_out := searchLoop now θ query_terms query ctype rest st1
        (mkResult sim q :: rest_out.1, rest_out.2)
      else searchLoop now θ query_terms query ctype rest st

/-- `_search_database`: scan `memory_quantums` for rows with
`relevance_score >= threshold`, matching the type filter, and `LIKE`-matching
each of the first three query terms against the lowered content or the
lowered JSON-dumped tags; order by relevance descending, apply the SQL
`LIMIT`, then drop rows already cached and attach similarity scores. -/
def search_database (now : ℕ) (query : String) (ctype : Option String)
    (limit : ℕ) (θ : ℚ) (st : CoreState) : List SearchResult :=
  let query_terms_all := splitWs (strLower query)
  let likeTerms := query_terms_all.take 3
  let rows := st.db.filter (fun r =>
    decide (θ ≤ r.relevance_score) &&
    (match ctype with | none => true | some t => r.content_type == t) &&
    likeTerms.all (fun term =>
      strContainsStr (strLower r.content) term ||
      strContainsStr (strLower (jsonStrList r.tags)) term))
  let rows := (List.insertionSort
    (fun a b => b.relevance_score ≤ a.relevance_score) rows).take limit
  let query_terms := distinct (splitWs (strLower query))
  (rows.filter (fun r => !st.cache.any (fun q => q.id == r.id))).map
    (fun r => mkResult (calculate_similarity now query_terms r) r)

/-- `search_memory_quantums`: resolve the threshold (a passed `0.0` or
`None` falls back to the instance default, Python truthiness), run the
cache loop (with its access side effects), stable-sort the cache results
by `rel*0.6 + sim*0.4` descending, truncate to `limit`, and only if fewer
than `limit` results were found, top up from the database scan. -/
def search_memory_quantums (cfg : Config) (now : ℕ) (query : String)
    (ctype : Option String) (limit : ℕ) (rthr : Option ℚ) (st : CoreState) :
    List SearchResult × CoreState :=
  let θ := match rthr with
    | none => cfg.relevance_threshold
    | some t => if t = 0 then cfg.relevance_threshold else t
  let query_terms := distinct (splitWs (strLower query))
  let loop_out := searchLoop now θ query_terms query ctype st.cache st
  let sorted := List.insertionSort
    (fun a b =>
      b.relevance_score * (6/10) + b.similarity_score * (4/10) ≤
      a.relevance_score * (6/10) + a.similarity_score * (4/10)) loop_out.1
  let firstBatch := sorted.take limit
  let results := if firstBatch.length < limit
    then firstBatch ++
      search_database now query ctype (limit - firstBatch.length) θ loop_out.2
    else firstBatch
  (results.take limit, loop_out.2)

/-- `cleanup_low_relevance`: collect the ids of rows with
`relevance_score < threshold AND access_count < 2`, delete them from the
`memory_quantums` and `access_patterns` tables and from the cache, and
return how many ids were collected. -/
def cleanup_low_relevance (threshold : ℚ) (st : CoreState) : ℕ × CoreState :=
  let ids := (st.db.filter
    (fun r => r.relevance_score < threshold ∧ r.access_count < 2)).map (·.id)
  (ids.length,
    { cache := st.cache.filter (fun q => decide (q.id ∉ ids)),
      db := st.db.filter (fun r => decide (r.id ∉ ids)),
      access_patterns := st.access_patterns.filter (fun p => decide (p.1 ∉ ids)) })

end MemoryQuantumCore

/-! ## `memory_quantum_core_complete.py` — class `MemoryQuantumCoreComplete` -/

namespace MemoryQuantumCoreComplete

/-- The `MemoryType` enum. -/
inductive MemoryType where
  | experience | knowledge | pattern | skill | context | emotional | procedural | semantic
deriving DecidableEq

/-- The string `.value` of a `MemoryType` member. -/
def MemoryType.value : MemoryType → String
  | .experience => "experience"
  | .knowledge => "knowledge"
  | .pattern => "pattern"
  | .skill => "skill"
  | .context => "context"
  | .emotional => "emotional"
  | .procedural => "procedural"
  | .semantic => "semantic"

/-- The `QuantumState` enum. -/
inductive QState where
  | active | dormant | reinforced | fading | crystallized | volatile
deriving DecidableEq

/-- The string `.value` of a `QuantumState` member. -/
def QState.value : QState → String
  | .active => "active"
  | .dormant => "dormant"
  | .reinforced => "reinforced"
  | .fading => "fading"
  | .crystallized => "crystallized"
  | .volatile => "volatile"

/-- A Python `context` dict value, as far as
`_extract_context_embeddings` discriminates it (`str`, numeric, other). -/
inductive CtxVal where
  | str (s : String)
  | num (q : ℚ)
  | other
deriving DecidableEq

/-- The `MemoryQuantum` dataclass of `memory_quantum_core_complete.py`.
`meta_information` is kept as a string-valued dict: no claim inspects its
values, only the `tsl_analysis` entry is ever written. -/
structure CQuantum where
  quantum_id : String
  content : String
  memory_type : MemoryType
  quantum_state : QState
  relevance_score : ℚ
  access_count : ℕ
  creation_time : ℕ
  last_access : ℕ
  decay_rate : ℚ
  reinforcement_level : ℕ
  associated_quantums : List String
  context_embeddings : List (String × ℚ)
  meta_information : List (String × String)
  cross_reference_weight : ℚ
  learning_impact : ℚ
deriving DecidableEq

/-- Environment of the complete store: the sha256-prefix digest, and the
database/time-dependent helpers whose outputs are never inspected by any
claim (`_perform_tsl_analysis` result as a serialized string,
`_find_related_quantums` id list). -/
structure CEnv where
  sha16 : String → String
  tslMeta : CQuantum → String
  findRelated : CQuantum → List String

/-- `_generate_quantum_id`:
`QM_<TYPE[:4].upper()>_<%Y%m%d_%H%M%S>_<sha256(content)[:16]>`. -/
def generate_quantum_id (sha16 : String → String) (content : String)
    (mt : MemoryType) (ts : String) : String :=
  "QM_" ++ strUpper (strTake 4 mt.value) ++ "_" ++ ts ++ "_" ++ sha16 content

/-- Maximum of the counter values of a word-frequency dict, defaulting to 1
when the dict is empty (`max(word_freq.values()) if word_freq else 1`). -/
def maxFreq (d : List (String × ℕ)) : ℕ :=
  match d with
  | [] => 1
  | _ => d.foldl (fun m p => max m p.2) 0

/-- `_extract_context_embeddings`: tokenize the lowered content into word
runs, count the words longer than two characters, weight each word by its
frequency over the maximum frequency, overlay `context_<key>` entries
(weight 1 for text values, `min(1, |v|/100)` for numeric ones, others
skipped), then keep the top 20 entries by weight (stable descending
sort). -/
def extract_context_embeddings (content : String)
    (context : List (String × CtxVal)) : List (String × ℚ) :=
  let words := wordRuns (strLower content)
  let word_freq := words.foldl
    (fun d w => if 2 < w.length then dictIncr d w else d) []
  let mf : ℚ := (maxFreq word_freq : ℕ)
  let embeddings : List (String × ℚ) := word_freq.map (fun p => (p.1, (p.2 : ℚ) / mf))
  let embeddings := context.foldl
    (fun e p =>
      match p.2 with
      | .str _ => dictSet e ("context_" ++ p.1) 1
      | .num v => dictSet e ("context_" ++ p.1) (min 1 (|v| / 100))
      | .other => e) embeddings
  (List.insertionSort (fun a b => b.2 ≤ a.2) embeddings).take 20

/-- The common-key set `set(embeddings1.keys()) & set(embeddings2.keys())`
as a duplicate-free list. -/
def commonKeys (e1 e2 : List (String × ℚ)) : List String :=
  (distinct (e1.map (·.1))).filter (fun k => (e2.map (·.1)).contains k)

/-- `sum(embeddings1[key] * embeddings2[key] for key in common_keys)`. -/
def dotCommon (e1 e2 : List (String × ℚ)) : ℚ :=
  ((commonKeys e1 e2).map (fun k => lookupD e1 k * lookupD e2 k)).sum

/-- `sum(val**2 for val in embeddings.values())`. -/
def sumSquares (e : List (String × ℚ)) : ℚ := (e.map (fun p => p.2 * p.2)).sum

/-- `_calculate_embedding_similarity`: 0 if either dict is empty or the key
sets are disjoint; otherwise the dot product over the common keys divided
by the product of the norms, 0 if either norm is zero.  `sqrtFn` stands for
the float `** 0.5`; every theorem holds for an arbitrary `sqrtFn`. -/
def calculate_embedding_similarity (sqrtFn : ℚ → ℚ)
    (e1 e2 : List (String × ℚ)) : ℚ :=
  if e1 = [] ∨ e2 = [] then 0
  else if commonKeys e1 e2 = [] then 0
  else
    let norm1 := sqrtFn (sumSquares e1)
    let norm2 := sqrtFn (sumSquares e2)
    if norm1 = 0 ∨ norm2 = 0 then 0
    else dotCommon e1 e2 / (norm1 * norm2)

/-- `_reinforce_existing_quantum` applied to the cached quantum: bump
access count and last access, raise the reinforcement level, run the state
transition ladder, and boost the relevance score to
`min(1.0, rel * 1.1)`. -/
def reinforce_quantum (now : ℕ) (q : CQuantum) : CQuantum :=
  let q := { q with access_count := q.access_count + 1, last_access := now,
                    reinforcement_level := q.reinforcement_level + 1 }
  let q :=
    if 10 < q.reinforcement_level ∧ q.quantum_state = QState.active then
      { q with quantum_state := QState.reinforced }
    else if 50 < q.reinforcement_level ∧ q.quantum_state = QState.reinforced then
      { q with quantum_state := QState.crystallized }
    else q
  { q with relevance_score := min 1 (q.relevance_score * (11/10)) }

/-- `store_memory_quantum_complete`: derive the quantum id; if it is
already active, reinforce the existing quantum in place and return the id;
otherwise create a fresh quantum (`relevance_score = 1.0`,
`access_count = 1`, state `ACTIVE`), attach the TSL analysis to
`meta_information` and the first ten related ids, and append it to
`active_quantums`.  `ts` is the second-granular `%Y%m%d_%H%M%S` stamp used
inside the id; `decay` is `config['quantum_decay_rate']`. -/
def store_memory_quantum_complete (env : CEnv) (decay : ℚ) (now : ℕ)
    (ts : String) (content : String) (mt : MemoryType)
    (context : List (String × CtxVal)) (meta_info : List (String × String))
    (st : List CQuantum) : String × List CQuantum :=
  let quantum_id := generate_quantum_id env.sha16 content mt ts
  if st.any (fun q => q.quantum_id == quantum_id) then
    (quantum_id,
     st.map (fun q => if q.quantum_id = quantum_id then reinforce_quantum now q else q))
  else
    let q : CQuantum :=
      { quantum_id := quantum_id, content := content, memory_type := mt,
        quantum_state := QState.active, relevance_score := 1, access_count := 1,
        creation_time := now, last_access := now, decay_rate := decay,
        reinforcement_level := 1, associated_quantums := [],
        context_embeddings := extract_context_embeddings content context,
        meta_information := meta_info, cross_reference_weight := 1,
        learning_impact := 0 }
    let q := { q with
      meta_information := dictSet q.meta_information "tsl_analysis" (env.tslMeta q) }
    let q := { q with associated_quantums := (env.findRelated q).take 10 }
    (quantum_id, st ++ [q])

/-- `_calculate_content_match`: 1 when the lowered query occurs verbatim in
the lowered content, otherwise the fraction of distinct query words that
occur among the content words, 0 for a wordless query. -/
def calculate_content_match (query content : String) : ℚ :=
  let query_lower := strLower query
  let content_lower := strLower content
  if strContainsStr content_lower query_lower then 1
  else
    let query_words := distinct (wordRuns query_lower)
    let content_words := distinct (wordRuns content_lower)
    if query_words = [] then 0
    else (interCount query_words content_words : ℚ) / (query_words.length : ℚ)

/-- `_calculate_context_match`: the total embedding weight carried by
entries whose (lowered) key contains some query keyword as a substring,
over the total weight; 0 when either side is empty or the total weight is
zero. -/
def calculate_context_match (query_keywords : List String)
    (emb : List (String × ℚ)) : ℚ :=
  if query_keywords = [] ∨ emb = [] then 0
  else
    let matchSum := ((emb.filter (fun p =>
      query_keywords.any (fun kw => strContainsStr (strLower p.1) kw))).map (·.2)).sum
    let total := (emb.map (·.2)).sum
    if total = 0 then 0 else matchSum / total

/-- Search filters accepted by `search_memory_quantums_complete`
(`memory_type`, `quantum_state`, `min_relevance`). -/
structure CFilters where
  memory_type : Option String
  quantum_state : Option String
  min_relevance : Option ℚ
deriving DecidableEq

/-- No filters (`filters = {}`). -/
def noFilters : CFilters := ⟨none, none, none⟩

/-- The `MemorySearchResult` dataclass (`search_path` omitted: it only
carries a formatted echo of `content_match`). -/
structure CSearchResult where
  quantum : CQuantum
  relevance_score : ℚ
  context_match : ℚ
  associated_memories : List String
deriving DecidableEq

/-- The SQL candidate scan of `search_memory_quantums_complete`: rows
passing the three optional filters and, when the query has keywords,
`LIKE`-matching at least one of the first five keywords (SQLite `LIKE` is
ASCII-case-insensitive); ordered by `relevance_score DESC, last_access
DESC` and truncated to `limit * 2`. -/
def sqlCandidates (db : List CQuantum) (filters : CFilters)
    (kws : List String) (limit : ℕ) : List CQuantum :=
  let pass := db.filter (fun r =>
    (match filters.memory_type with | none => true | some t => r.memory_type.value == t) &&
    (match filters.quantum_state with | none => true | some t => r.quantum_state.value == t) &&
    (match filters.min_relevance with | none => true | some m => decide (m ≤ r.relevance_score)) &&
    (kws.isEmpty || (kws.take 5).any (fun kw => strContainsStr (strLower r.content) kw)))
  (List.insertionSort
    (fun a b =>
      b.relevance_score < a.relevance_score ∨
      (b.relevance_score = a.relevance_score ∧ b.last_access ≤ a.last_access)) pass).take
    (limit * 2)

/-- Total score of a candidate:
`content_match*0.4 + context_match*0.3 + relevance_score*0.3`. -/
def totalScore (query : String) (kws : List String) (q : CQuantum) : ℚ :=
  calculate_content_match query q.content * (4/10) +
    calculate_context_match kws q.context_embeddings * (3/10) +
    q.relevance_score * (3/10)

/-- `search_memory_quantums_complete`: extract the distinct query keywords,
run the SQL candidate scan, score each candidate, keep those with total
score above 0.1 as `MemorySearchResult`s, stable-sort by total score
descending, and return the first `limit`. -/
def search_memory_quantums_complete (db : List CQuantum) (query : String)
    (filters : CFilters) (limit : ℕ) : List CSearchResult :=
  let kws := distinct (wordRuns (strLower query))
  let rows := sqlCandidates db filters kws limit
  let results := rows.filterMap (fun q =>
    let total := totalScore query kws q
    if (1/10 : ℚ) < total then
      some { quantum := q, relevance_score := total,
             context_match := calculate_context_match kws q.context_embeddings,
             associated_memories := q.associated_quantums.take 5 }
    else none)
  (List.insertionSort
    (fun a b => b.relevance_score ≤ a.relevance_score) results).take limit

end MemoryQuantumCoreComplete

/-! ## Helper lemmas about the embedding-similarity components -/

namespace MemoryQuantumCoreComplete

theorem mem_commonKeys {k : String} {e1 e2 : List (String × ℚ)} :
    k ∈ commonKeys e1 e2 ↔ k ∈ e1.map (·.1) ∧ k ∈ e2.map (·.1) := by
  simp [commonKeys, List.mem_filter, mem_distinct]

theorem nodup_commonKeys (e1 e2 : List (String × ℚ)) :
    (commonKeys e1 e2).Nodup :=
  (nodup_distinct _).filter _

theorem commonKeys_perm (e1 e2 : List (String × ℚ)) :
    (commonKeys e1 e2).Perm (commonKeys e2 e1) := by
  refine (List.perm_ext_iff_of_nodup (nodup_commonKeys e1 e2) (nodup_commonKeys e2 e1)).2
    (fun k => ?_)
  rw [mem_commonKeys, mem_commonKeys, and_comm]

theorem commonKeys_eq_nil_comm (e1 e2 : List (String × ℚ)) :
    commonKeys e1 e2 = [] ↔ commonKeys e2 e1 = [] := by
  rw [List.eq_nil_iff_forall_not_mem, List.eq_nil_iff_forall_not_mem]
  exact forall_congr' (fun k => not_congr (commonKeys_perm e1 e2).mem_iff)

theorem dotCommon_comm (e1 e2 : List (String × ℚ)) :
    dotCommon e1 e2 = dotCommon e2 e1 := by
  unfold dotCommon
  have h1 : ((commonKeys e2 e1).map (fun k => lookupD e2 k * lookupD e1 k)).sum =
      ((commonKeys e2 e1).map (fun k => lookupD e1 k * lookupD e2 k)).sum := by
    refine congrArg List.sum (List.map_congr_left (fun k _ => mul_comm _ _))
  rw [h1]
  exact ((commonKeys_perm e1 e2).map _).sum_eq

end MemoryQuantumCoreComplete

/-! ## Claim C8 -/

/-- Claim C8: for all embedding mappings `A` and `B`,
`_calculate_embedding_similarity(A, B) = _calculate_embedding_similarity(B, A)`
— for every choice of the square-root function used inside the norms. -/
theorem C8_embedding_similarity_symmetric (sqrtFn : ℚ → ℚ)
    (e1 e2 : List (String × ℚ)) :
    MemoryQuantumCoreComplete.calculate_embedding_similarity sqrtFn e1 e2 =
      MemoryQuantumCoreComplete.calculate_embedding_similarity sqrtFn e2 e1 := by
  unfold MemoryQuantumCoreComplete.calculate_embedding_similarity
  by_cases hemp : e1 = [] ∨ e2 = []
  · rw [if_pos hemp, if_pos (Or.symm hemp)]
  · rw [if_neg hemp, if_neg (fun h => hemp (Or.symm h))]
    by_cases hcom : MemoryQuantumCoreComplete.commonKeys e1 e2 = []
    · rw [if_pos hcom,
        if_pos ((MemoryQuantumCoreComplete.commonKeys_eq_nil_comm e1 e2).1 hcom)]
    · rw [if_neg hcom,
        if_neg (fun h => hcom ((MemoryQuantumCoreComplete.commonKeys_eq_nil_comm e1 e2).2 h))]
      by_cases hz : sqrtFn (MemoryQuantumCoreComplete.sumSquares e1) = 0 ∨
          sqrtFn (MemoryQuantumCoreComplete.sumSquares e2) = 0
      · rw [if_pos hz, if_pos (Or.symm hz)]
      · rw [if_neg hz, if_neg (fun h => hz (Or.symm h)),
          MemoryQuantumCoreComplete.dotCommon_comm, mul_comm]

/-! ## Claim C3 -/

/-- Claim C3: `_extract_context_embeddings` is deterministic and
side-effect-free (it is a pure function of its two arguments): two calls
with identical `(content, context)` arguments return identical
term-to-weight mappings. -/
theorem C3_extract_embeddings_deterministic (c1 c2 : String)
    (ctx1 ctx2 : List (String × MemoryQuantumCoreComplete.CtxVal))
    (hc : c1 = c2) (hctx : ctx1 = ctx2) :
    MemoryQuantumCoreComplete.extract_context_embeddings c1 ctx1 =
      MemoryQuantumCoreComplete.extract_context_embeddings c2 ctx2 := by
  rw [hc, hctx]

/-- Witness for C3 at a concrete call: the extraction applied twice to the
content `"task finished ok task"` with a one-entry context. -/
theorem C3_extract_embeddings_witness :
    "task finished ok task" = "task finished ok task" ∧
    MemoryQuantumCoreComplete.extract_context_embeddings "task finished ok task"
        [("user", MemoryQuantumCoreComplete.CtxVal.str "takawasi")] =
      MemoryQuantumCoreComplete.extract_context_embeddings "task finished ok task"
        [("user", MemoryQuantumCoreComplete.CtxVal.str "takawasi")] :=
  ⟨rfl, C3_extract_embeddings_deterministic _ _ _ _ rfl rfl⟩

/-! ## Claim C6 -/

/-- Claim C6: `cleanup_low_relevance(threshold)` permanently deletes exactly
the database records with `relevance_score < threshold AND access_count < 2`
and returns the number of records deleted. -/
theorem C6_cleanup_deletes_exactly (threshold : ℚ)
    (st : MemoryQuantumCore.CoreState)
    (hn : (st.db.map (·.id)).Nodup) :
    (MemoryQuantumCore.cleanup_low_relevance threshold st).1 =
      (st.db.filter (fun r =>
        decide (r.relevance_score < threshold ∧ r.access_count < 2))).length
    ∧ (∀ r ∈ st.db,
        (r ∈ (MemoryQuantumCore.cleanup_low_relevance threshold st).2.db ↔
          ¬ (r.relevance_score < threshold ∧ r.access_count < 2)))
    ∧ (∀ r ∈ (MemoryQuantumCore.cleanup_low_relevance threshold st).2.db,
        r ∈ st.db) := by
  refine ⟨by simp [MemoryQuantumCore.cleanup_low_relevance], ?_, ?_⟩
  · intro r hr
    have hid : (r.id ∈ (st.db.filter (fun r =>
        decide (r.relevance_score < threshold ∧ r.access_count < 2))).map
          (·.id)) ↔ (r.relevance_score < threshold ∧ r.access_count < 2) := by
      constructor
      · intro hmem
        obtain ⟨r', hr', hreq⟩ := List.mem_map.1 hmem
        have hr'db := (List.mem_filter.1 hr').1
        have hpred := of_decide_eq_true (List.mem_filter.1 hr').2
        have : r' = r := List.inj_on_of_nodup_map hn hr'db hr hreq
        exact this ▸ hpred
      · intro hpred
        exact List.mem_map_of_mem _
          (List.mem_filter.2 ⟨hr, decide_eq_true hpred⟩)
    simp only [MemoryQuantumCore.cleanup_low_relevance, List.mem_filter,
      decide_eq_true_eq]
    constructor
    · rintro ⟨-, hnot⟩
      exact fun hpred => hnot (hid.2 hpred)
    · exact fun hnot => ⟨hr, fun hmem => hnot (hid.1 hmem)⟩
  · intro r hr
    exact (List.mem_filter.1 hr).1

/-- First record of the eviction-threshold scenario:
`relevance_score = 0.1`, `access_count = 0`. -/
def C6r1 : MemoryQuantumCore.MemoryQuantum :=
  { id := "mq_low", content := "cold fact", content_type := "general",
    relevance_score := 1/10, access_count := 0, created_at := 0,
    last_accessed := 0, tags := [], relationships := [], context_hash := "h",
    importance_weight := 1 }

/-- Second record of the eviction-threshold scenario:
`relevance_score = 0.1`, `access_count = 5`. -/
def C6r2 : MemoryQuantumCore.MemoryQuantum :=
  { id := "mq_hot", content := "hot fact", content_type := "general",
    relevance_score := 1/10, access_count := 5, created_at := 0,
    last_accessed := 0, tags := [], relationships := [], context_hash := "h",
    importance_weight := 1 }

/-- Store state holding exactly the two scenario records. -/
def C6st : MemoryQuantumCore.CoreState :=
  { cache := [C6r1, C6r2], db := [C6r1, C6r2], access_patterns := [] }

/-- Witness for C6 at the scenario of the spec: with threshold 0.2 the
record with `relevance_score = 0.1, access_count = 0` is removed, the one
with `access_count = 5` is retained, and the returned count is 1. -/
theorem C6_cleanup_witness :
    (C6st.db.map (·.id)).Nodup ∧
    (MemoryQuantumCore.cleanup_low_relevance (2/10) C6st).1 = 1 ∧
    C6r1 ∉ (MemoryQuantumCore.cleanup_low_relevance (2/10) C6st).2.db ∧
    C6r2 ∈ (MemoryQuantumCore.cleanup_low_relevance (2/10) C6st).2.db := by
  have h := C6_cleanup_deletes_exactly (2/10) C6st (by decide)
  refine ⟨by decide, ?_, ?_, ?_⟩
  · rw [h.1]
    norm_num [C6st, C6r1, C6r2]
  · intro hmem
    exact ((h.2.1 C6r1 (by simp [C6st])).1 hmem)
      ⟨by norm_num [C6r1], by norm_num [C6r1]⟩
  · refine (h.2.1 C6r2 (by simp [C6st])).2 ?_
    rintro ⟨-, hlt⟩
    norm_num [C6r2] at hlt

/-! ## Shared helper lemmas about the store operations -/

namespace MemoryQuantumCore

theorem mem_dbUpsert_self (db : List MemoryQuantum) (q : MemoryQuantum) :
    q ∈ dbUpsert db q := by
  induction db with
  | nil => simp [dbUpsert]
  | cons p l ih =>
    by_cases h : p.id = q.id
    · simp [dbUpsert, h]
    · simp only [dbUpsert, if_neg h]
      exact List.mem_cons_of_mem _ ih

theorem mem_dbUpsert {db : List MemoryQuantum} {q r : MemoryQuantum}
    (h : r ∈ dbUpsert db q) : r = q ∨ r ∈ db := by
  induction db with
  | nil => simpa [dbUpsert] using h
  | cons p l ih =>
    by_cases hp : p.id = q.id
    · rcases List.mem_cons.1 (by simpa [dbUpsert, hp] using h) with h1 | h1
      · exact Or.inl h1
      · exact Or.inr (List.mem_cons_of_mem _ h1)
    · rcases List.mem_cons.1 (by simpa [dbUpsert, hp] using h) with h1 | h1
      · exact Or.inr (h1 ▸ List.mem_cons_self _ _)
      · rcases ih h1 with h2 | h2
        · exact Or.inl h2
        · exact Or.inr (List.mem_cons_of_mem _ h2)

theorem mem_cacheInsert {l : List MemoryQuantum} {q r : MemoryQuantum}
    (h : r ∈ cacheInsert l q) : r = q ∨ r ∈ l := by
  induction l with
  | nil => simpa [cacheInsert] using h
  | cons p l ih =>
    by_cases hp : p.id = q.id
    · rcases List.mem_cons.1 (by simpa [cacheInsert, hp] using h) with h1 | h1
      · exact Or.inl h1
      · exact Or.inr (List.mem_cons_of_mem _ h1)
    · rcases List.mem_cons.1 (by simpa [cacheInsert, hp] using h) with h1 | h1
      · exact Or.inr (h1 ▸ List.mem_cons_self _ _)
      · rcases ih h1 with h2 | h2
        · exact Or.inl h2
        · exact Or.inr (List.mem_cons_of_mem _ h2)

theorem consolidate_memory_db_mem (cfg : Config) (now : ℕ) (st : CoreState)
    {r : MemoryQuantum} (hr : r ∈ st.db) :
    ∃ rr ∈ (consolidate_memory cfg now st).db,
      rr.id = r.id ∧ rr.content = r.content ∧ rr.access_count = r.access_count := by
  unfold consolidate_memory
  by_cases hlen : st.cache.length ≤ cfg.max_memory_size
  · exact ⟨r, by simpa [hlen] using hr, rfl, rfl, rfl⟩
  · simp only [if_neg hlen]
    refine ⟨_, List.mem_map_of_mem _ hr, ?_⟩
    cases hfind : (((List.insertionSort (fun a b =>
        consolidate_score now b ≤ consolidate_score now a) st.cache).drop
          cfg.max_memory_size).filter (fun q =>
            decide (q.relevance_score < cfg.relevance_threshold))).find?
          (fun q => q.id == r.id) with
    | none => simp [hfind]
    | some q => simp [hfind]

/-- The new-record path of `store_memory_quantum`: the stored record with
the returned id has the given content and `access_count = 1`, and this
survives a possible consolidation (which never touches `access_count` or
`content`). -/
theorem store_memory_quantum_creates (env : Env) (cfg : Config) (now : ℕ)
    (ts content content_type : String) (tags : List String)
    (context_hash : String) (st : CoreState) :
    ∃ r ∈ (store_memory_quantum env cfg now ts content content_type tags
        context_hash st).2.db,
      r.id = (store_memory_quantum env cfg now ts content content_type tags
        context_hash st).1 ∧
      r.content = content ∧ r.access_count = 1 := by
  unfold store_memory_quantum
  set q : MemoryQuantum :=
    { id := "mq_" ++ ts ++ "_" ++ strTake 8 (env.md5 content), content := content,
      content_type := content_type,
      relevance_score := calculate_initial_relevance content content_type tags,
      access_count := 1, created_at := now, last_accessed := now, tags := tags,
      relationships := [], context_hash := context_hash,
      importance_weight := 1 } with hq
  set st1 : CoreState :=
    { cache := cacheInsert st.cache q, db := dbUpsert st.db q,
      access_patterns := st.access_patterns } with hst1
  by_cases hc : cfg.consolidation_interval < st1.cache.length
  · simp only [hc, if_true]
    obtain ⟨rr, hrr, hid, hcontent, hac⟩ :=
      consolidate_memory_db_mem cfg now st1 (mem_dbUpsert_self st.db q)
    exact ⟨rr, hrr, by simp [hid, hq], by simp [hcontent, hq], by simp [hac, hq]⟩
  · simp only [hc, if_false]
    exact ⟨q, mem_dbUpsert_self st.db q, rfl, rfl, rfl⟩

end MemoryQuantumCore

namespace MemoryQuantumCoreComplete

theorem store_complete_fresh (cenv : CEnv) (decay : ℚ) (now : ℕ)
    (ts content : String) (mt : MemoryType) (ctx : List (String × CtxVal))
    (meta : List (String × String)) (cst : List CQuantum)
    (hfresh : ∀ q ∈ cst,
      q.quantum_id ≠ generate_quantum_id cenv.sha16 content mt ts) :
    ∃ q ∈ (store_memory_quantum_complete cenv decay now ts content mt ctx
        meta cst).2,
      q.quantum_id = (store_memory_quantum_complete cenv decay now ts content
        mt ctx meta cst).1 ∧
      q.content = content ∧ q.access_count = 1 ∧ q.relevance_score = 1 := by
  have hany : cst.any (fun q =>
      q.quantum_id == generate_quantum_id cenv.sha16 content mt ts) = false := by
    rw [List.any_eq_false]
    intro q hq
    simpa using hfresh q hq
  unfold store_memory_quantum_complete
  rw [if_neg (by simp [hany])]
  exact ⟨_, List.mem_append_right _ (List.mem_singleton_self _), rfl, rfl, rfl, rfl⟩

theorem store_complete_existing (cenv : CEnv) (decay : ℚ) (now : ℕ)
    (ts content : String) (mt : MemoryType) (ctx : List (String × CtxVal))
    (meta : List (String × String)) (cst : List CQuantum)
    (hex : ∃ q ∈ cst,
      q.quantum_id = generate_quantum_id cenv.sha16 content mt ts) :
    (store_memory_quantum_complete cenv decay now ts content mt ctx meta cst).1 =
      generate_quantum_id cenv.sha16 content mt ts ∧
    (store_memory_quantum_complete cenv decay now ts content mt ctx meta cst).2 =
      cst.map (fun q =>
        if q.quantum_id = generate_quantum_id cenv.sha16 content mt ts
        then reinforce_quantum now q else q) := by
  have hany : cst.any (fun q =>
      q.quantum_id == generate_quantum_id cenv.sha16 content mt ts) = true := by
    rw [List.any_eq_true]
    obtain ⟨q, hq, heq⟩ := hex
    exact ⟨q, hq, by simpa using heq⟩
  unfold store_memory_quantum_complete
  rw [if_pos (by simp only [hany])]
  exact ⟨rfl, rfl⟩

theorem reinforce_quantum_fields (now : ℕ) (q : CQuantum)
    (h0 : 0 ≤ q.relevance_score) (h1 : q.relevance_score ≤ 1) :
    (reinforce_quantum now q).access_count = q.access_count + 1 ∧
    q.relevance_score ≤ (reinforce_quantum now q).relevance_score ∧
    (reinforce_quantum now q).relevance_score ≤ 1 ∧
    (reinforce_quantum now q).quantum_id = q.quantum_id ∧
    (reinforce_quantum now q).content = q.content := by
  have hle : q.relevance_score ≤ q.relevance_score * (11/10) := by nlinarith
  unfold reinforce_quantum
  dsimp only
  split_ifs <;>
    exact ⟨rfl, le_min h1 hle, min_le_left _ _, rfl, rfl⟩

end MemoryQuantumCoreComplete

/-! ## Claim C10 -/

/-- Claim C10: immediately after `store` creates a new record, that record
has `access_count = 1` (both in `store_memory_quantum` and, on a fresh id,
in `store_memory_quantum_complete`); consequently a record that is never
returned by any search still has `access_count < 2`, and whenever its
relevance drops below the cleanup threshold it is deleted by
`cleanup_low_relevance`. -/
theorem C10_new_record_access_count_one :
    (∀ (env : MemoryQuantumCore.Env) (cfg : MemoryQuantumCore.Config)
       (now : ℕ) (ts content content_type : String) (tags : List String)
       (context_hash : String) (st : MemoryQuantumCore.CoreState),
       ∃ r ∈ (MemoryQuantumCore.store_memory_quantum env cfg now ts content
           content_type tags context_hash st).2.db,
         r.id = (MemoryQuantumCore.store_memory_quantum env cfg now ts content
           content_type tags context_hash st).1 ∧
         r.access_count = 1 ∧ r.access_count < 2)
    ∧ (∀ (cenv : MemoryQuantumCoreComplete.CEnv) (decay : ℚ) (now : ℕ)
       (ts content : String) (mt : MemoryQuantumCoreComplete.MemoryType)
       (ctx : List (String × MemoryQuantumCoreComplete.CtxVal))
       (meta : List (String × String))
       (cst : List MemoryQuantumCoreComplete.CQuantum),
       (∀ q ∈ cst, q.quantum_id ≠
          MemoryQuantumCoreComplete.generate_quantum_id cenv.sha16 content mt ts) →
       ∃ q ∈ (MemoryQuantumCoreComplete.store_memory_quantum_complete cenv decay
           now ts content mt ctx meta cst).2,
         q.quantum_id = (MemoryQuantumCoreComplete.store_memory_quantum_complete
           cenv decay now ts content mt ctx meta cst).1 ∧
         q.access_count = 1 ∧ q.access_count < 2)
    ∧ (∀ (t : ℚ) (st : MemoryQuantumCore.CoreState)
       (r : MemoryQuantumCore.MemoryQuantum), r ∈ st.db → r.access_count = 1 →
       r.relevance_score < t →
       r ∉ (MemoryQuantumCore.cleanup_low_relevance t st).2.db) := by
  refine ⟨?_, ?_, ?_⟩
  · intro env cfg now ts content content_type tags context_hash st
    obtain ⟨r, hr, hid, -, hac⟩ := MemoryQuantumCore.store_memory_quantum_creates
      env cfg now ts content content_type tags context_hash st
    exact ⟨r, hr, hid, hac, by omega⟩
  · intro cenv decay now ts content mt ctx meta cst hfresh
    obtain ⟨q, hq, hid, -, hac, -⟩ := MemoryQuantumCoreComplete.store_complete_fresh
      cenv decay now ts content mt ctx meta cst hfresh
    exact ⟨q, hq, hid, hac, by omega⟩
  · intro t st r hr hac hrel
    intro hmem
    have h1 := (List.mem_filter.1 hmem).2
    have h2 : r.id ∈ (st.db.filter (fun x =>
        decide (x.relevance_score < t ∧ x.access_count < 2))).map (·.id) :=
      List.mem_map_of_mem _ (List.mem_filter.2 ⟨hr, decide_eq_true ⟨hrel, by omega⟩⟩)
    exact (of_decide_eq_true h1) h2

/-- Concrete core environment for the C10 witness (md5 digest of the empty
environment modelled as a constant digest). -/
def C10env : MemoryQuantumCore.Env := ⟨fun _ => "9e107d9d372bb682"⟩

/-- Concrete complete environment for the C10 witness. -/
def C10cenv : MemoryQuantumCoreComplete.CEnv :=
  ⟨fun _ => "aaf4c61ddcc5e8a2", fun _ => "tsl", fun _ => []⟩

/-- Witness for C10: both stores applied to a fresh id on concrete inputs,
with the freshness hypothesis discharged on the empty state. -/
theorem C10_witness :
    (∀ q ∈ ([] : List MemoryQuantumCoreComplete.CQuantum), q.quantum_id ≠
      MemoryQuantumCoreComplete.generate_quantum_id C10cenv.sha16 "hello world"
        MemoryQuantumCoreComplete.MemoryType.experience "20250101_120000") ∧
    (∃ q ∈ (MemoryQuantumCoreComplete.store_memory_quantum_complete C10cenv
        (1/100) 0 "20250101_120000" "hello world"
        MemoryQuantumCoreComplete.MemoryType.experience [] [] []).2,
      q.quantum_id = (MemoryQuantumCoreComplete.store_memory_quantum_complete
        C10cenv (1/100) 0 "20250101_120000" "hello world"
        MemoryQuantumCoreComplete.MemoryType.experience [] [] []).1 ∧
      q.access_count = 1 ∧ q.access_count < 2) :=
  ⟨by simp,
   C10_new_record_access_count_one.2.1 C10cenv (1/100) 0 "20250101_120000"
     "hello world" MemoryQuantumCoreComplete.MemoryType.experience [] [] []
     (by simp)⟩

/-! ## Claim C2 -/

/-- Core environment for the C2 counterexample (constant md5 digest). -/
def C2env : MemoryQuantumCore.Env := ⟨fun _ => "d41d8cd98f00b204"⟩

/-- Complete environment for the C2 counterexample. -/
def C2cenv : MemoryQuantumCoreComplete.CEnv :=
  ⟨fun _ => "e3b0c44298fc1c14", fun _ => "tsl", fun _ => []⟩

/-- Counterexample to C2 as stated: storing the empty string does NOT fail —
both store implementations run to completion and persist a record with
empty content (`access_count = 1`); no validation error exists anywhere on
the path. -/
theorem C2_counterexample :
    ((MemoryQuantumCore.store_memory_quantum C2env MemoryQuantumCore.defaultConfig
        0 "20250101_000000_000000" "" "general" [] "ctxhash"
        ⟨[], [], []⟩).2.db.map (fun r => (r.content, r.access_count)) = [("", 1)])
    ∧ ((MemoryQuantumCoreComplete.store_memory_quantum_complete C2cenv (1/100) 0
        "20250101_000000" "" MemoryQuantumCoreComplete.MemoryType.experience
        [] [] []).2.map (fun q => (q.content, q.access_count)) = [("", 1)]) := by
  constructor
  · norm_num [MemoryQuantumCore.store_memory_quantum, MemoryQuantumCore.dbUpsert,
      MemoryQuantumCore.cacheInsert, MemoryQuantumCore.defaultConfig]
  · norm_num [MemoryQuantumCoreComplete.store_memory_quantum_complete,
      MemoryQuantumCoreComplete.generate_quantum_id, C2cenv]

/-- Claim C2 (amended): storing empty content does not fail and is not
rejected — there is no validation; the call returns an id and a record with
empty content and `access_count = 1` is created and persisted (by both
store implementations; for the complete store, on a fresh id). -/
theorem C2_empty_content_stored :
    (∀ (env : MemoryQuantumCore.Env) (cfg : MemoryQuantumCore.Config)
       (now : ℕ) (ts content_type : String) (tags : List String)
       (context_hash : String) (st : MemoryQuantumCore.CoreState),
       ∃ r ∈ (MemoryQuantumCore.store_memory_quantum env cfg now ts ""
           content_type tags context_hash st).2.db,
         r.id = (MemoryQuantumCore.store_memory_quantum env cfg now ts ""
           content_type tags context_hash st).1 ∧
         r.content = "" ∧ r.access_count = 1)
    ∧ (∀ (cenv : MemoryQuantumCoreComplete.CEnv) (decay : ℚ) (now : ℕ)
       (ts : String) (mt : MemoryQuantumCoreComplete.MemoryType)
       (ctx : List (String × MemoryQuantumCoreComplete.CtxVal))
       (meta : List (String × String))
       (cst : List MemoryQuantumCoreComplete.CQuantum),
       (∀ q ∈ cst, q.quantum_id ≠
          MemoryQuantumCoreComplete.generate_quantum_id cenv.sha16 "" mt ts) →
       ∃ q ∈ (MemoryQuantumCoreComplete.store_memory_quantum_complete cenv decay
           now ts "" mt ctx meta cst).2,
         q.quantum_id = (MemoryQuantumCoreComplete.store_memory_quantum_complete
           cenv decay now ts "" mt ctx meta cst).1 ∧
         q.content = "" ∧ q.access_count = 1) := by
  constructor
  · intro env cfg now ts content_type tags context_hash st
    exact MemoryQuantumCore.store_memory_quantum_creates env cfg now ts ""
      content_type tags context_hash st
  · intro cenv decay now ts mt ctx meta cst hfresh
    obtain ⟨q, hq, hid, hcontent, hac, -⟩ :=
      MemoryQuantumCoreComplete.store_complete_fresh cenv decay now ts "" mt
        ctx meta cst hfresh
    exact ⟨q, hq, hid, hcontent, hac⟩

/-- Witness for the amended C2 at concrete inputs, the complete-store
freshness hypothesis discharged on the empty state. -/
theorem C2_empty_content_stored_witness :
    (∀ q ∈ ([] : List MemoryQuantumCoreComplete.CQuantum), q.quantum_id ≠
      MemoryQuantumCoreComplete.generate_quantum_id C2cenv.sha16 ""
        MemoryQuantumCoreComplete.MemoryType.experience "20250101_000000") ∧
    (∃ q ∈ (MemoryQuantumCoreComplete.store_memory_quantum_complete C2cenv
        (1/100) 0 "20250101_000000" ""
        MemoryQuantumCoreComplete.MemoryType.experience [] [] []).2,
      q.quantum_id = (MemoryQuantumCoreComplete.store_memory_quantum_complete
        C2cenv (1/100) 0 "20250101_000000" ""
        MemoryQuantumCoreComplete.MemoryType.experience [] [] []).1 ∧
      q.content = "" ∧ q.access_count = 1) :=
  ⟨by simp,
   C2_empty_content_stored.2 C2cenv (1/100) 0 "20250101_000000"
     MemoryQuantumCoreComplete.MemoryType.experience [] [] [] (by simp)⟩

/-! ## Claim C1 -/

namespace MemoryQuantumCoreComplete

/-- Equality form of the fresh-id path of
`store_memory_quantum_complete`: the state becomes the old dict with one
record appended, and that record carries the derived id, `access_count = 1`
and `relevance_score = 1`. -/
theorem store_complete_fresh_eq (cenv : CEnv) (decay : ℚ) (now : ℕ)
    (ts content : String) (mt : MemoryType) (ctx : List (String × CtxVal))
    (meta : List (String × String)) (cst : List CQuantum)
    (hfresh : ∀ q ∈ cst,
      q.quantum_id ≠ generate_quantum_id cenv.sha16 content mt ts) :
    (store_memory_quantum_complete cenv decay now ts content mt ctx meta cst).1 =
      generate_quantum_id cenv.sha16 content mt ts ∧
    ∃ qnew : CQuantum,
      (store_memory_quantum_complete cenv decay now ts content mt ctx meta cst).2 =
        cst ++ [qnew] ∧
      qnew.quantum_id = generate_quantum_id cenv.sha16 content mt ts ∧
      qnew.access_count = 1 ∧ qnew.relevance_score = 1 ∧ qnew.content = content := by
  have hany : cst.any (fun q =>
      q.quantum_id == generate_quantum_id cenv.sha16 content mt ts) = false := by
    rw [List.any_eq_false]
    intro q hq
    simpa using hfresh q hq
  unfold store_memory_quantum_complete
  rw [if_neg (by simp [hany])]
  exact ⟨rfl, _, rfl, rfl, rfl, rfl, rfl⟩

end MemoryQuantumCoreComplete

/-- Claim C1 (amended): two `store_memory_quantum_complete` calls with
identical `(content, memory_type)` deduplicate ONLY when they derive the
same quantum id, i.e. when their `%Y%m%d_%H%M%S` timestamp strings
coincide (same wall-clock second).  In that case the second call creates no
second record, returns the id of the first call, reinforces the existing
record — its `access_count` rises from 1 to 2 — and its relevance score
does not decrease (it stays 1). -/
theorem C1_store_idempotent_same_second
    (cenv : MemoryQuantumCoreComplete.CEnv) (decay : ℚ) (now1 now2 : ℕ)
    (ts content : String) (mt : MemoryQuantumCoreComplete.MemoryType)
    (ctx1 ctx2 : List (String × MemoryQuantumCoreComplete.CtxVal))
    (meta1 meta2 : List (String × String))
    (st : List MemoryQuantumCoreComplete.CQuantum)
    (hfresh : ∀ q ∈ st, q.quantum_id ≠
      MemoryQuantumCoreComplete.generate_quantum_id cenv.sha16 content mt ts) :
    (MemoryQuantumCoreComplete.store_memory_quantum_complete cenv decay now2 ts
        content mt ctx2 meta2
        (MemoryQuantumCoreComplete.store_memory_quantum_complete cenv decay now1
          ts content mt ctx1 meta1 st).2).1 =
      (MemoryQuantumCoreComplete.store_memory_quantum_complete cenv decay now1
        ts content mt ctx1 meta1 st).1 ∧
    (MemoryQuantumCoreComplete.store_memory_quantum_complete cenv decay now2 ts
        content mt ctx2 meta2
        (MemoryQuantumCoreComplete.store_memory_quantum_complete cenv decay now1
          ts content mt ctx1 meta1 st).2).2.length =
      (MemoryQuantumCoreComplete.store_memory_quantum_complete cenv decay now1
        ts content mt ctx1 meta1 st).2.length ∧
    ∃ q ∈ (MemoryQuantumCoreComplete.store_memory_quantum_complete cenv decay
        now2 ts content mt ctx2 meta2
        (MemoryQuantumCoreComplete.store_memory_quantum_complete cenv decay now1
          ts content mt ctx1 meta1 st).2).2,
      q.quantum_id = (MemoryQuantumCoreComplete.store_memory_quantum_complete
        cenv decay now1 ts content mt ctx1 meta1 st).1 ∧
      q.access_count = 2 ∧ q.relevance_score = 1 := by
  obtain ⟨hid1, qnew, hst1, hqid, hac, hrel, -⟩ :=
    MemoryQuantumCoreComplete.store_complete_fresh_eq cenv decay now1 ts content
      mt ctx1 meta1 st hfresh
  have hex : ∃ q ∈ (MemoryQuantumCoreComplete.store_memory_quantum_complete cenv
      decay now1 ts content mt ctx1 meta1 st).2,
      q.quantum_id =
        MemoryQuantumCoreComplete.generate_quantum_id cenv.sha16 content mt ts := by
    exact ⟨qnew, by rw [hst1]; exact List.mem_append_right _ (List.mem_singleton_self _), hqid⟩
  obtain ⟨hid2, hst2⟩ := MemoryQuantumCoreComplete.store_complete_existing cenv
    decay now2 ts content mt ctx2 meta2 _ hex
  have hfields := MemoryQuantumCoreComplete.reinforce_quantum_fields now2 qnew
    (by rw [hrel]; norm_num) (by rw [hrel])
  refine ⟨by rw [hid2, hid1], by rw [hst2, List.length_map], ?_⟩
  refine ⟨MemoryQuantumCoreComplete.reinforce_quantum now2 qnew, ?_, ?_, ?_, ?_⟩
  · rw [hst2, hst1, List.map_append]
    refine List.mem_append_right _ ?_
    simp [hqid]
  · rw [hfields.2.2.2.1, hqid, hid1]
  · rw [hfields.1, hac]
  · have hup := hfields.2.2.1
    have hlow := hfields.2.1
    rw [hrel] at hlow
    exact le_antisymm hup hlow

/-- Complete environment for the C1 counterexample and witness. -/
def C1cenv : MemoryQuantumCoreComplete.CEnv :=
  ⟨fun _ => "2d711642b726b044", fun _ => "tsl", fun _ => []⟩

/-- Counterexample to C1 as stated: two stores of the identical
`("task done", EXPERIENCE)` pair, one second apart, derive different ids
(the id embeds the call-time `%Y%m%d_%H%M%S` stamp), so the second call
creates a second record instead of reinforcing: afterwards two records
exist, each with `access_count = 1`, and the two calls return different
ids. -/
theorem C1_counterexample :
    ((MemoryQuantumCoreComplete.store_memory_quantum_complete C1cenv (1/100) 1
        "20250101_000001" "task done"
        MemoryQuantumCoreComplete.MemoryType.experience [] []
        (MemoryQuantumCoreComplete.store_memory_quantum_complete C1cenv (1/100) 0
          "20250101_000000" "task done"
          MemoryQuantumCoreComplete.MemoryType.experience [] [] []).2).2.map
        (fun q => (q.quantum_id, q.access_count)) =
      [("QM_EXPE_20250101_000000_2d711642b726b044", 1),
       ("QM_EXPE_20250101_000001_2d711642b726b044", 1)])
    ∧ (MemoryQuantumCoreComplete.store_memory_quantum_complete C1cenv (1/100) 1
        "20250101_000001" "task done"
        MemoryQuantumCoreComplete.MemoryType.experience [] []
        (MemoryQuantumCoreComplete.store_memory_quantum_complete C1cenv (1/100) 0
          "20250101_000000" "task done"
          MemoryQuantumCoreComplete.MemoryType.experience [] [] []).2).1 ≠
      (MemoryQuantumCoreComplete.store_memory_quantum_complete C1cenv (1/100) 0
        "20250101_000000" "task done"
        MemoryQuantumCoreComplete.MemoryType.experience [] [] []).1 := by
  constructor
  · decide
  · decide

/-- Witness for the amended C1 at concrete inputs, the freshness hypothesis
discharged on the empty state: two same-second stores of `"task done"`. -/
theorem C1_store_idempotent_witness :
    (∀ q ∈ ([] : List MemoryQuantumCoreComplete.CQuantum), q.quantum_id ≠
      MemoryQuantumCoreComplete.generate_quantum_id C1cenv.sha16 "task done"
        MemoryQuantumCoreComplete.MemoryType.experience "20250101_000000") ∧
    ((MemoryQuantumCoreComplete.store_memory_quantum_complete C1cenv (1/100) 1
        "20250101_000000" "task done"
        MemoryQuantumCoreComplete.MemoryType.experience [] []
        (MemoryQuantumCoreComplete.store_memory_quantum_complete C1cenv (1/100) 0
          "20250101_000000" "task done"
          MemoryQuantumCoreComplete.MemoryType.experience [] [] []).2).1 =
      (MemoryQuantumCoreComplete.store_memory_quantum_complete C1cenv (1/100) 0
        "20250101_000000" "task done"
        MemoryQuantumCoreComplete.MemoryType.experience [] [] []).1 ∧
    (MemoryQuantumCoreComplete.store_memory_quantum_complete C1cenv (1/100) 1
        "20250101_000000" "task done"
        MemoryQuantumCoreComplete.MemoryType.experience [] []
        (MemoryQuantumCoreComplete.store_memory_quantum_complete C1cenv (1/100) 0
          "20250101_000000" "task done"
          MemoryQuantumCoreComplete.MemoryType.experience [] [] []).2).2.length =
      (MemoryQuantumCoreComplete.store_memory_quantum_complete C1cenv (1/100) 0
        "20250101_000000" "task done"
        MemoryQuantumCoreComplete.MemoryType.experience [] [] []).2.length ∧
    ∃ q ∈ (MemoryQuantumCoreComplete.store_memory_quantum_complete C1cenv (1/100)
        1 "20250101_000000" "task done"
        MemoryQuantumCoreComplete.MemoryType.experience [] []
        (MemoryQuantumCoreComplete.store_memory_quantum_complete C1cenv (1/100) 0
          "20250101_000000" "task done"
          MemoryQuantumCoreComplete.MemoryType.experience [] [] []).2).2,
      q.quantum_id = (MemoryQuantumCoreComplete.store_memory_quantum_complete
        C1cenv (1/100) 0 "20250101_000000" "task done"
        MemoryQuantumCoreComplete.MemoryType.experience [] [] []).1 ∧
      q.access_count = 2 ∧ q.relevance_score = 1) :=
  ⟨by simp,
   C1_store_idempotent_same_second C1cenv (1/100) 0 1 "20250101_000000"
     "task done" MemoryQuantumCoreComplete.MemoryType.experience [] [] [] [] []
     (by simp)⟩

/-! ## Claim C9 -/

namespace MemoryQuantumCore

/-- Modelled from the spec (§4.4): the composite consolidation score the
spec prescribes, with the access term capped at 1 —
`0.6*relevance + 0.2*min(access_count/100, 1) + 0.2*recency`. -/
def consolidate_spec_score (now : ℕ) (q : MemoryQuantum) : ℚ :=
  q.relevance_score * (6/10) + min ((q.access_count : ℚ) / 100) 1 * (2/10) +
    (1 / (max (daysBetween now q.last_accessed) 1 : ℚ)) * (2/10)

/-- Modelled from the spec (§4.4): consolidation as the spec describes it —
rank by `consolidate_spec_score`, keep exactly the top `max_cache_size`
records in the working set, and persist a 0.8-decayed score for every
evicted record whose relevance is below the threshold. -/
def consolidate_memory_specModel (cfg : Config) (now : ℕ) (st : CoreState) :
    CoreState :=
  if st.cache.length ≤ cfg.max_memory_size then st
  else
    let sorted := List.insertionSort
      (fun a b => consolidate_spec_score now b ≤ consolidate_spec_score now a)
      st.cache
    let evicted := sorted.drop cfg.max_memory_size
    let decayIds := (evicted.filter
      (fun q => decide (q.relevance_score < cfg.relevance_threshold))).map (·.id)
    { cache := sorted.take cfg.max_memory_size,
      db := st.db.map (fun r =>
        if decayIds.contains r.id
        then { r with relevance_score := r.relevance_score * (8/10) } else r),
      access_patterns := st.access_patterns }

/-- First match of an id among records with pairwise-distinct ids. -/
theorem find?_id_eq_some {l : List MemoryQuantum} {q : MemoryQuantum}
    {i : String} (hn : (l.map (·.id)).Nodup) (hq : q ∈ l) (hi : q.id = i) :
    l.find? (fun r => r.id == i) = some q := by
  induction l with
  | nil => cases hq
  | cons p l ih =>
    rw [List.map_cons, List.nodup_cons] at hn
    rcases List.mem_cons.1 hq with rfl | hq'
    · rw [List.find?_cons_of_pos _ (by simp [hi])]
    · by_cases hp : p.id = i
      · refine absurd ?_ hn.1
        rw [hp, ← hi]
        exact List.mem_map_of_mem _ hq'
      · rw [List.find?_cons_of_neg _ (by simp [hp])]
        exact ih hn.2 hq'

end MemoryQuantumCore

/-- Record A of the C9 scenario: `relevance 0.25, access_count 300`, last
accessed at the consolidation time.  Its uncapped code score is 0.95, the
spec's capped composite is 0.55. -/
def C9qA : MemoryQuantumCore.MemoryQuantum :=
  { id := "A", content := "hot but low relevance", content_type := "general",
    relevance_score := 1/4, access_count := 300, created_at := 0,
    last_accessed := 1000, tags := [], relationships := [], context_hash := "h",
    importance_weight := 1 }

/-- Record B of the C9 scenario: `relevance 0.6, access_count 0`; both
scores are 0.56. -/
def C9qB : MemoryQuantumCore.MemoryQuantum :=
  { id := "B", content := "cold but relevant", content_type := "general",
    relevance_score := 3/5, access_count := 0, created_at := 0,
    last_accessed := 1000, tags := [], relationships := [], context_hash := "h",
    importance_weight := 1 }

/-- Configuration with `max_memory_size = 1` so a two-record cache must
consolidate. -/
def C9cfg : MemoryQuantumCore.Config :=
  { max_memory_size := 1, relevance_threshold := 3/10,
    consolidation_interval := 100 }

/-- State with cache `[B, A]` and the matching database rows. -/
def C9st : MemoryQuantumCore.CoreState :=
  { cache := [C9qB, C9qA], db := [C9qA, C9qB], access_patterns := [] }

/-- Counterexample to C9 as stated: the code's consolidation score for
record A (access_count 300) differs from the spec's capped composite
(0.95 vs 0.55), and consolidating the two-record cache with
`max_cache_size = 1` keeps BOTH records in the working set (the evicted
candidate has relevance 0.6 ≥ threshold, so the code does not remove it),
whereas the spec's consolidation keeps only the top record B. -/
theorem C9_counterexample :
    MemoryQuantumCore.consolidate_score 1000 C9qA ≠
      MemoryQuantumCore.consolidate_spec_score 1000 C9qA
    ∧ (MemoryQuantumCore.consolidate_memory C9cfg 1000 C9st).cache.map (·.id) =
      ["B", "A"]
    ∧ (MemoryQuantumCore.consolidate_memory_specModel C9cfg 1000 C9st).cache.map
        (·.id) = ["B"] := by
  refine ⟨?_, ?_, ?_⟩
  · norm_num [MemoryQuantumCore.consolidate_score,
      MemoryQuantumCore.consolidate_spec_score, C9qA, daysBetween]
  · norm_num [MemoryQuantumCore.consolidate_memory, C9cfg, C9st, C9qA, C9qB,
      MemoryQuantumCore.consolidate_score, daysBetween,
      List.insertionSort, List.orderedInsert]
  · norm_num [MemoryQuantumCore.consolidate_memory_specModel, C9cfg, C9st,
      C9qA, C9qB, MemoryQuantumCore.consolidate_spec_score, daysBetween,
      List.insertionSort, List.orderedInsert]

/-- Claim C9 (amended): `_consolidate_memory` ranks the cache by the
UNCAPPED composite `0.6*relevance + 0.2*(access_count/100) + 0.2*recency`
(no `min(..., 1)` on the access term), and it does NOT keep exactly the top
`max_memory_size` records: a record outside the top stays in the working
set unless its `relevance_score` is below `relevance_threshold`; exactly
the sub-threshold evicted records leave the cache and have the decayed
score `rel*0.8` persisted to their database row. -/
theorem C9_consolidate_uncapped_and_selective (cfg : MemoryQuantumCore.Config)
    (now : ℕ) (st : MemoryQuantumCore.CoreState)
    (hlen : cfg.max_memory_size < st.cache.length)
    (hn : (st.cache.map (·.id)).Nodup) :
    List.Sorted
      (fun a b => MemoryQuantumCore.consolidate_score now b ≤
        MemoryQuantumCore.consolidate_score now a)
      (List.insertionSort
        (fun a b => MemoryQuantumCore.consolidate_score now b ≤
          MemoryQuantumCore.consolidate_score now a) st.cache)
    ∧ (∀ q ∈ st.cache,
        (q ∈ (MemoryQuantumCore.consolidate_memory cfg now st).cache ↔
          q ∈ (List.insertionSort
            (fun a b => MemoryQuantumCore.consolidate_score now b ≤
              MemoryQuantumCore.consolidate_score now a) st.cache).take
            cfg.max_memory_size ∨
          ¬ q.relevance_score < cfg.relevance_threshold))
    ∧ (∀ r ∈ st.db,
        (∀ q ∈ (List.insertionSort
            (fun a b => MemoryQuantumCore.consolidate_score now b ≤
              MemoryQuantumCore.consolidate_score now a) st.cache).drop
            cfg.max_memory_size,
          q.relevance_score < cfg.relevance_threshold → q.id ≠ r.id) →
        r ∈ (MemoryQuantumCore.consolidate_memory cfg now st).db)
    ∧ (∀ r ∈ st.db,
        ∀ q ∈ (List.insertionSort
            (fun a b => MemoryQuantumCore.consolidate_score now b ≤
              MemoryQuantumCore.consolidate_score now a) st.cache).drop
            cfg.max_memory_size,
          q.relevance_score < cfg.relevance_threshold → q.id = r.id →
          { r with relevance_score := q.relevance_score * (8/10) } ∈
            (MemoryQuantumCore.consolidate_memory cfg now st).db) := by
  set key := MemoryQuantumCore.consolidate_score now with hkey
  set rel : MemoryQuantumCore.MemoryQuantum → MemoryQuantumCore.MemoryQuantum → Prop :=
    fun a b => key b ≤ key a with hrel
  haveI htot : IsTotal MemoryQuantumCore.MemoryQuantum rel :=
    ⟨fun a b => le_total _ _⟩
  haveI htrans : IsTrans MemoryQuantumCore.MemoryQuantum rel :=
    ⟨fun a b c h1 h2 => le_trans h2 h1⟩
  set sorted := List.insertionSort rel st.cache with hsorted
  have hperm : sorted.Perm st.cache := List.perm_insertionSort rel st.cache
  have hsorted_ids : (sorted.map (·.id)).Nodup := ((hperm.map _).nodup_iff).2 hn
  have hsorted_nodup : sorted.Nodup := hsorted_ids.of_map
  set toRemove := sorted.drop cfg.max_memory_size with htoRemove
  set removed := toRemove.filter
    (fun q => decide (q.relevance_score < cfg.relevance_threshold)) with hremoved
  have hrem_sub_sorted : removed.Sublist sorted :=
    (List.filter_sublist toRemove).trans (List.drop_sublist _ _)
  have hrem_cache : ∀ q ∈ removed, q ∈ st.cache :=
    fun q hq => hperm.mem_iff.1 (hrem_sub_sorted.mem hq)
  have hrem_ids_nodup : (removed.map (·.id)).Nodup :=
    (hrem_sub_sorted.map _).nodup hsorted_ids
  have hconsol : MemoryQuantumCore.consolidate_memory cfg now st =
      { cache := st.cache.filter (fun q => decide (q.id ∉ removed.map (·.id))),
        db := st.db.map (fun r =>
          match removed.find? (fun q => q.id == r.id) with
          | some q => { r with relevance_score := q.relevance_score * (8/10) }
          | none => r),
        access_patterns := st.access_patterns } := by
    unfold MemoryQuantumCore.consolidate_memory
    rw [if_neg (not_le.2 hlen)]
  refine ⟨List.sorted_insertionSort rel st.cache, ?_, ?_, ?_⟩
  · intro q hq
    have hidmem : q.id ∈ removed.map (·.id) ↔ q ∈ removed := by
      constructor
      · intro hmem
        obtain ⟨q', hq', heq⟩ := List.mem_map.1 hmem
        exact (List.inj_on_of_nodup_map hn (hrem_cache q' hq') hq heq) ▸ hq'
      · exact List.mem_map_of_mem _
    have hsplit : q ∈ sorted.take cfg.max_memory_size ∨ q ∈ toRemove := by
      have : q ∈ sorted := hperm.mem_iff.2 hq
      rw [← List.take_append_drop cfg.max_memory_size sorted] at this
      exact List.mem_append.1 this
    have hdisj : q ∈ sorted.take cfg.max_memory_size → q ∉ toRemove := by
      intro h1 h2
      have := hsorted_nodup
      rw [← List.take_append_drop cfg.max_memory_size sorted,
        List.nodup_append] at this
      exact this.2.2 h1 h2
    rw [hconsol]
    simp only [List.mem_filter, decide_eq_true_eq]
    constructor
    · rintro ⟨-, hnotin⟩
      rcases hsplit with h | h
      · exact Or.inl h
      · by_cases hq_rel : q.relevance_score < cfg.relevance_threshold
        · exact absurd (hidmem.2 (List.mem_filter.2 ⟨h, decide_eq_true hq_rel⟩))
            hnotin
        · exact Or.inr hq_rel
    · intro h
      refine ⟨hq, fun hin => ?_⟩
      have hqrem := hidmem.1 hin
      have hqfacts := List.mem_filter.1 hqrem
      rcases h with htake | hq_rel
      · exact hdisj htake hqfacts.1
      · exact hq_rel (of_decide_eq_true hqfacts.2)
  · intro r hr hnone
    rw [hconsol]
    have hfind : removed.find? (fun q => q.id == r.id) = none := by
      rw [List.find?_eq_none]
      intro q hq
      have hqfacts := List.mem_filter.1 hq
      simpa using hnone q hqfacts.1 (of_decide_eq_true hqfacts.2)
    exact List.mem_map.2 ⟨r, hr, by rw [hfind]⟩
  · intro r hr q hqdrop hq_rel hqid
    rw [hconsol]
    have hqrem : q ∈ removed :=
      List.mem_filter.2 ⟨hqdrop, decide_eq_true hq_rel⟩
    have hfind : removed.find? (fun x => x.id == r.id) = some q :=
      MemoryQuantumCore.find?_id_eq_some hrem_ids_nodup hqrem hqid
    exact List.mem_map.2 ⟨r, hr, by rw [hfind]⟩

/-- Witness for the amended C9 at the concrete two-record state: the
hypotheses (cache larger than the limit, distinct ids) hold for `C9st`. -/
theorem C9_consolidate_witness :
    (C9cfg.max_memory_size < C9st.cache.length ∧
      (C9st.cache.map (·.id)).Nodup) ∧
    (List.Sorted
      (fun a b => MemoryQuantumCore.consolidate_score 1000 b ≤
        MemoryQuantumCore.consolidate_score 1000 a)
      (List.insertionSort
        (fun a b => MemoryQuantumCore.consolidate_score 1000 b ≤
          MemoryQuantumCore.consolidate_score 1000 a) C9st.cache) ∧
    (∀ q ∈ C9st.cache,
        (q ∈ (MemoryQuantumCore.consolidate_memory C9cfg 1000 C9st).cache ↔
          q ∈ (List.insertionSort
            (fun a b => MemoryQuantumCore.consolidate_score 1000 b ≤
              MemoryQuantumCore.consolidate_score 1000 a) C9st.cache).take
            C9cfg.max_memory_size ∨
          ¬ q.relevance_score < C9cfg.relevance_threshold))) :=
  ⟨⟨by decide, by decide⟩,
   (C9_consolidate_uncapped_and_selective C9cfg 1000 C9st (by decide)
      (by decide)).1,
   (C9_consolidate_uncapped_and_selective C9cfg 1000 C9st (by decide)
      (by decide)).2.1⟩

/-! ## Claim C5 -/

/-- Claim C5 (amended): every result returned by
`search_memory_quantums_complete` carries the total score
`0.4*content_match + 0.3*context_match + 0.3*relevance_score` of its
quantum, candidates with total score ≤ 0.1 are excluded, and the returned
list is sorted non-increasing by total score; ties follow the SQL candidate
order (stored relevance descending, then last access descending), NOT
last-accessed descending. -/
theorem C5_search_scores_and_order
    (db : List MemoryQuantumCoreComplete.CQuantum) (query : String)
    (filters : MemoryQuantumCoreComplete.CFilters) (limit : ℕ) :
    (∀ res ∈ MemoryQuantumCoreComplete.search_memory_quantums_complete db query
        filters limit,
      res.relevance_score =
        MemoryQuantumCoreComplete.calculate_content_match query
          res.quantum.content * (4/10) +
        MemoryQuantumCoreComplete.calculate_context_match
          (distinct (wordRuns (strLower query)))
          res.quantum.context_embeddings * (3/10) +
        res.quantum.relevance_score * (3/10) ∧
      (1/10 : ℚ) < res.relevance_score)
    ∧ List.Sorted (fun a b => b.relevance_score ≤ a.relevance_score)
        (MemoryQuantumCoreComplete.search_memory_quantums_complete db query
          filters limit) := by
  set rel : MemoryQuantumCoreComplete.CSearchResult →
      MemoryQuantumCoreComplete.CSearchResult → Prop :=
    fun a b => b.relevance_score ≤ a.relevance_score with hrel
  haveI htot : IsTotal MemoryQuantumCoreComplete.CSearchResult rel :=
    ⟨fun a b => le_total _ _⟩
  haveI htrans : IsTrans MemoryQuantumCoreComplete.CSearchResult rel :=
    ⟨fun a b c h1 h2 => le_trans h2 h1⟩
  constructor
  · intro res hres
    unfold MemoryQuantumCoreComplete.search_memory_quantums_complete at hres
    have hres2 : res ∈ List.insertionSort rel _ :=
      (List.take_sublist limit _).mem hres
    have hres3 := (List.perm_insertionSort rel _).mem_iff.1 hres2
    obtain ⟨q, -, hq⟩ := List.mem_filterMap.1 hres3
    by_cases htot10 :
        (1/10 : ℚ) < MemoryQuantumCoreComplete.totalScore query
          (distinct (wordRuns (strLower query))) q
    · rw [if_pos htot10] at hq
      obtain rfl := Option.some_injective _ hq
      refine ⟨?_, htot10⟩
      simp [MemoryQuantumCoreComplete.totalScore]
    · rw [if_neg htot10] at hq
      cases hq
  · unfold MemoryQuantumCoreComplete.search_memory_quantums_complete
    exact (List.sorted_insertionSort rel _).sublist (List.take_sublist limit _)

/-- Record A of the C5 tie scenario: content matches the query verbatim,
stored relevance 0.1, most recently accessed; its total score is 0.43. -/
def C5qA : MemoryQuantumCoreComplete.CQuantum :=
  { quantum_id := "A", content := "alpha beta x",
    memory_type := MemoryQuantumCoreComplete.MemoryType.experience,
    quantum_state := MemoryQuantumCoreComplete.QState.active,
    relevance_score := 1/10, access_count := 1, creation_time := 0,
    last_access := 100, decay_rate := 0, reinforcement_level := 1,
    associated_quantums := [], context_embeddings := [],
    meta_information := [], cross_reference_weight := 1, learning_impact := 0 }

/-- Record B of the C5 tie scenario: only one query word matches, stored
relevance 23/30, accessed earlier; its total score is also 0.43. -/
def C5qB : MemoryQuantumCoreComplete.CQuantum :=
  { quantum_id := "B", content := "alpha y",
    memory_type := MemoryQuantumCoreComplete.MemoryType.experience,
    quantum_state := MemoryQuantumCoreComplete.QState.active,
    relevance_score := 23/30, access_count := 1, creation_time := 0,
    last_access := 50, decay_rate := 0, reinforcement_level := 1,
    associated_quantums := [], context_embeddings := [],
    meta_information := [], cross_reference_weight := 1, learning_impact := 0 }

/-- The two-record table of the C5 scenario. -/
def C5db : List MemoryQuantumCoreComplete.CQuantum := [C5qA, C5qB]

/-- Counterexample to C5 as stated: searching `"alpha beta"` gives both
records the identical total score 0.43, yet the record accessed LESS
recently (B, last access 50) is returned before the more recent one (A,
last access 100) — the tie is broken by the SQL candidate order (stored
relevance descending), not by `last_accessed` descending. -/
theorem C5_counterexample :
    ((MemoryQuantumCoreComplete.search_memory_quantums_complete C5db
        "alpha beta" MemoryQuantumCoreComplete.noFilters 5).map
        (fun r => r.quantum.quantum_id) = ["B", "A"])
    ∧ ((MemoryQuantumCoreComplete.search_memory_quantums_complete C5db
        "alpha beta" MemoryQuantumCoreComplete.noFilters 5).map
        (fun r => r.relevance_score) = [43/100, 43/100])
    ∧ C5qB.last_access < C5qA.last_access := by
  refine ⟨?_, ?_, by decide⟩ <;>
    norm_num +decide [MemoryQuantumCoreComplete.search_memory_quantums_complete,
      MemoryQuantumCoreComplete.sqlCandidates, MemoryQuantumCoreComplete.noFilters,
      MemoryQuantumCoreComplete.calculate_content_match,
      MemoryQuantumCoreComplete.calculate_context_match,
      MemoryQuantumCoreComplete.totalScore, MemoryQuantumCoreComplete.MemoryType.value,
      strLower, wordRuns, runsBy, runsByAux, isWordChar, distinct, distinctAux,
      interCount, strContainsStr, List.insertionSort, List.orderedInsert,
      List.filterMap_cons, C5db, C5qA, C5qB]

/-! ## Claim C7 — helper lemmas -/

namespace MemoryQuantumCore

/-- All relevance scores of a core store state lie in `[0, 1]`. -/
def scoresBounded (st : CoreState) : Prop :=
  (∀ q ∈ st.cache, 0 ≤ q.relevance_score ∧ q.relevance_score ≤ 1) ∧
  (∀ r ∈ st.db, 0 ≤ r.relevance_score ∧ r.relevance_score ≤ 1)

theorem type_multiplier_pos (content_type : String) :
    (0 : ℚ) < type_multiplier content_type := by
  unfold type_multiplier
  split_ifs <;> norm_num

theorem initial_relevance_bounds (content content_type : String)
    (tags : List String) :
    0 ≤ calculate_initial_relevance content content_type tags ∧
    calculate_initial_relevance content content_type tags ≤ 1 := by
  unfold calculate_initial_relevance
  refine ⟨le_min ?_ (by norm_num), min_le_right _ _⟩
  have h1 : (0 : ℚ) ≤ min ((content.length : ℚ) / 1000) (2/10) :=
    le_min (by positivity) (by norm_num)
  have h2 : (0 : ℚ) ≤ min ((tags.length : ℚ) * (5/100)) (15/100) :=
    le_min (by positivity) (by norm_num)
  have h3 := type_multiplier_pos content_type
  positivity

theorem consolidate_memory_preserves (cfg : Config) (now : ℕ) (st : CoreState)
    (h : scoresBounded st) : scoresBounded (consolidate_memory cfg now st) := by
  unfold consolidate_memory
  split_ifs with hlen
  · exact h
  · refine ⟨fun q hq => h.1 q (List.mem_filter.1 hq).1, fun r hr => ?_⟩
    obtain ⟨r0, hr0, hmap⟩ := List.mem_map.1 hr
    cases hfind : (((List.insertionSort (fun a b =>
        consolidate_score now b ≤ consolidate_score now a) st.cache).drop
          cfg.max_memory_size).filter (fun q =>
            decide (q.relevance_score < cfg.relevance_threshold))).find?
          (fun q => q.id == r0.id) with
    | none =>
      rw [hfind] at hmap
      exact hmap ▸ h.2 r0 hr0
    | some q =>
      rw [hfind] at hmap
      have hqc : q ∈ st.cache :=
        (List.perm_insertionSort _ st.cache).mem_iff.1
          (((List.filter_sublist _).trans (List.drop_sublist _ _)).mem
            (List.mem_of_find?_eq_some hfind))
      have hqb := h.1 q hqc
      refine hmap ▸ ⟨?_, ?_⟩
      · exact mul_nonneg hqb.1 (by norm_num)
      · exact mul_le_one₀ hqb.2 (by norm_num) (by norm_num)

theorem store_memory_quantum_preserves (env : Env) (cfg : Config) (now : ℕ)
    (ts content content_type : String) (tags : List String)
    (context_hash : String) (st : CoreState) (h : scoresBounded st) :
    scoresBounded (store_memory_quantum env cfg now ts content content_type
      tags context_hash st).2 := by
  unfold store_memory_quantum
  dsimp only
  have hst1 : scoresBounded
      { cache := cacheInsert st.cache
          { id := "mq_" ++ ts ++ "_" ++ strTake 8 (env.md5 content),
            content := content, content_type := content_type,
            relevance_score := calculate_initial_relevance content content_type tags,
            access_count := 1, created_at := now, last_accessed := now,
            tags := tags, relationships := [], context_hash := context_hash,
            importance_weight := 1 },
        db := dbUpsert st.db
          { id := "mq_" ++ ts ++ "_" ++ strTake 8 (env.md5 content),
            content := content, content_type := content_type,
            relevance_score := calculate_initial_relevance content content_type tags,
            access_count := 1, created_at := now, last_accessed := now,
            tags := tags, relationships := [], context_hash := context_hash,
            importance_weight := 1 },
        access_patterns := st.access_patterns } := by
    constructor
    · intro q hq
      rcases mem_cacheInsert hq with rfl | hq'
      · exact initial_relevance_bounds content content_type tags
      · exact h.1 q hq'
    · intro r hr
      rcases mem_dbUpsert hr with rfl | hr'
      · exact initial_relevance_bounds content content_type tags
      · exact h.2 r hr'
  split_ifs with hc
  · exact consolidate_memory_preserves cfg now _ hst1
  · exact hst1

theorem record_access_preserves (now : ℕ) (qid qc : String) (st : CoreState)
    (h : scoresBounded st) : scoresBounded (record_access now qid qc st) := by
  unfold record_access
  dsimp only
  split_ifs with hany
  · refine ⟨fun q hq => ?_, fun r hr => ?_⟩
    · obtain ⟨q0, hq0, hmap⟩ := List.mem_map.1 hq
      have hb := h.1 q0 hq0
      by_cases hid : q0.id = qid
      · simpa [← hmap, hid, bumpAccess] using hb
      · simpa [← hmap, hid] using hb
    · obtain ⟨r0, hr0, hmap⟩ := List.mem_map.1 hr
      have hb := h.2 r0 hr0
      by_cases hid : r0.id = qid
      · simpa [← hmap, hid, bumpAccess] using hb
      · simpa [← hmap, hid] using hb
  · exact ⟨h.1, h.2⟩

theorem searchLoop_preserves (now : ℕ) (θ : ℚ) (query_terms : List String)
    (query : String) (ctype : Option String) (l : List MemoryQuantum)
    (st : CoreState) (h : scoresBounded st) :
    scoresBounded (searchLoop now θ query_terms query ctype l st).2 := by
  induction l generalizing st with
  | nil => simpa [searchLoop] using h
  | cons q rest ih =>
    unfold searchLoop
    dsimp only
    split_ifs with hskip hsim
    · exact ih st h
    · exact ih _ (record_access_preserves now q.id query st h)
    · exact ih st h

theorem search_memory_quantums_preserves (cfg : Config) (now : ℕ)
    (query : String) (ctype : Option String) (limit : ℕ) (rthr : Option ℚ)
    (st : CoreState) (h : scoresBounded st) :
    scoresBounded (search_memory_quantums cfg now query ctype limit rthr st).2 := by
  unfold search_memory_quantums
  exact searchLoop_preserves _ _ _ _ _ _ _ h

theorem cleanup_preserves (t : ℚ) (st : CoreState) (h : scoresBounded st) :
    scoresBounded (cleanup_low_relevance t st).2 := by
  refine ⟨fun q hq => ?_, fun r hr => ?_⟩
  · exact h.1 q (List.mem_filter.1 hq).1
  · exact h.2 r (List.mem_filter.1 hr).1

end MemoryQuantumCore

namespace MemoryQuantumCoreComplete

/-- All relevance scores of the complete store's active dict lie in
`[0, 1]`. -/
def scoresBoundedC (st : List CQuantum) : Prop :=
  ∀ q ∈ st, 0 ≤ q.relevance_score ∧ q.relevance_score ≤ 1

theorem reinforce_rel_bounds (now : ℕ) (q : CQuantum)
    (h0 : 0 ≤ q.relevance_score) :
    0 ≤ (reinforce_quantum now q).relevance_score ∧
    (reinforce_quantum now q).relevance_score ≤ 1 := by
  unfold reinforce_quantum
  dsimp only
  split_ifs <;>
    exact ⟨le_min (by norm_num) (mul_nonneg h0 (by norm_num)), min_le_left _ _⟩

theorem store_complete_preserves (cenv : CEnv) (decay : ℚ) (now : ℕ)
    (ts content : String) (mt : MemoryType) (ctx : List (String × CtxVal))
    (meta : List (String × String)) (cst : List CQuantum)
    (h : scoresBoundedC cst) :
    scoresBoundedC (store_memory_quantum_complete cenv decay now ts content mt
      ctx meta cst).2 := by
  unfold store_memory_quantum_complete
  dsimp only
  split_ifs with hany
  · intro q hq
    obtain ⟨q0, hq0, hmap⟩ := List.mem_map.1 hq
    have hb := h q0 hq0
    by_cases hid : q0.quantum_id = generate_quantum_id cenv.sha16 content mt ts
    · rw [if_pos hid] at hmap
      exact hmap ▸ reinforce_rel_bounds now q0 hb.1
    · rw [if_neg hid] at hmap
      exact hmap ▸ hb
  · intro q hq
    rcases List.mem_append.1 hq with hq' | hq'
    · exact h q hq'
    · rw [List.mem_singleton.1 hq']
      norm_num

end MemoryQuantumCoreComplete

/-! ## Claim C7 -/

/-- Claim C7: `0 ≤ relevance_score ≤ 1` holds for every stored record
before and after every operation of the store: the initial score is in
range, and `store`, `search` (with its access side effects),
`_consolidate_memory` (including its 0.8 decay write-back),
`cleanup_low_relevance`, `store_memory_quantum_complete` and
`_reinforce_existing_quantum` all preserve the bounds. -/
theorem C7_relevance_score_in_unit_interval :
    (∀ (content content_type : String) (tags : List String),
      0 ≤ MemoryQuantumCore.calculate_initial_relevance content content_type tags ∧
      MemoryQuantumCore.calculate_initial_relevance content content_type tags ≤ 1)
    ∧ (∀ (env : MemoryQuantumCore.Env) (cfg : MemoryQuantumCore.Config) (now : ℕ)
        (ts content content_type : String) (tags : List String)
        (context_hash : String) (st : MemoryQuantumCore.CoreState),
        MemoryQuantumCore.scoresBounded st →
        MemoryQuantumCore.scoresBounded
          (MemoryQuantumCore.store_memory_quantum env cfg now ts content
            content_type tags context_hash st).2)
    ∧ (∀ (cfg : MemoryQuantumCore.Config) (now : ℕ) (query : String)
        (ctype : Option String) (limit : ℕ) (rthr : Option ℚ)
        (st : MemoryQuantumCore.CoreState),
        MemoryQuantumCore.scoresBounded st →
        MemoryQuantumCore.scoresBounded
          (MemoryQuantumCore.search_memory_quantums cfg now query ctype limit
            rthr st).2)
    ∧ (∀ (cfg : MemoryQuantumCore.Config) (now : ℕ)
        (st : MemoryQuantumCore.CoreState),
        MemoryQuantumCore.scoresBounded st →
        MemoryQuantumCore.scoresBounded
          (MemoryQuantumCore.consolidate_memory cfg now st))
    ∧ (∀ (t : ℚ) (st : MemoryQuantumCore.CoreState),
        MemoryQuantumCore.scoresBounded st →
        MemoryQuantumCore.scoresBounded
          (MemoryQuantumCore.cleanup_low_relevance t st).2)
    ∧ (∀ (cenv : MemoryQuantumCoreComplete.CEnv) (decay : ℚ) (now : ℕ)
        (ts content : String) (mt : MemoryQuantumCoreComplete.MemoryType)
        (ctx : List (String × MemoryQuantumCoreComplete.CtxVal))
        (meta : List (String × String))
        (cst : List MemoryQuantumCoreComplete.CQuantum),
        MemoryQuantumCoreComplete.scoresBoundedC cst →
        MemoryQuantumCoreComplete.scoresBoundedC
          (MemoryQuantumCoreComplete.store_memory_quantum_complete cenv decay
            now ts content mt ctx meta cst).2)
    ∧ (∀ (now : ℕ) (q : MemoryQuantumCoreComplete.CQuantum),
        0 ≤ q.relevance_score →
        0 ≤ (MemoryQuantumCoreComplete.reinforce_quantum now q).relevance_score ∧
        (MemoryQuantumCoreComplete.reinforce_quantum now q).relevance_score ≤ 1) :=
  ⟨MemoryQuantumCore.initial_relevance_bounds,
   MemoryQuantumCore.store_memory_quantum_preserves,
   MemoryQuantumCore.search_memory_quantums_preserves,
   MemoryQuantumCore.consolidate_memory_preserves,
   MemoryQuantumCore.cleanup_preserves,
   MemoryQuantumCoreComplete.store_complete_preserves,
   MemoryQuantumCoreComplete.reinforce_rel_bounds⟩

/-- Core environment for the C7 witness. -/
def C7env : MemoryQuantumCore.Env := ⟨fun _ => "5d41402abc4b2a76"⟩

/-- Empty core state used by the C7 witness. -/
def C7st0 : MemoryQuantumCore.CoreState := ⟨[], [], []⟩

/-- Witness for C7: the bounds hypothesis holds for the empty state and is
preserved by a concrete store call on it. -/
theorem C7_relevance_bounds_witness :
    MemoryQuantumCore.scoresBounded C7st0 ∧
    MemoryQuantumCore.scoresBounded
      (MemoryQuantumCore.store_memory_quantum C7env
        MemoryQuantumCore.defaultConfig 0 "20250101_000000_000000" "hello"
        "general" [] "ch" C7st0).2 :=
  ⟨⟨by simp [C7st0], by simp [C7st0]⟩,
   C7_relevance_score_in_unit_interval.2.1 C7env
     MemoryQuantumCore.defaultConfig 0 "20250101_000000_000000" "hello"
     "general" [] "ch" C7st0 ⟨by simp [C7st0], by simp [C7st0]⟩⟩

/-! ## Claim C4 — helper lemmas -/

namespace MemoryQuantumCore

/-- Decidable form of the cache-loop condition of `search_memory_quantums`:
the record passes the (truthy) `content_type` filter and its similarity
reaches the threshold. -/
def passesSearch (now : ℕ) (θ : ℚ) (query_terms : List String)
    (ctype : Option String) (q : MemoryQuantum) : Bool :=
  !decide (ctypeSkips ctype q) &&
    decide (θ ≤ calculate_similarity now query_terms q)

@[simp]
theorem bumpAccess_id (now : ℕ) (q : MemoryQuantum) :
    (bumpAccess now q).id = q.id := rfl

theorem record_access_cache_eq (now : ℕ) (qid qc : String) (st : CoreState) :
    (record_access now qid qc st).cache =
      st.cache.map (fun q => if q.id = qid then bumpAccess now q else q) := by
  unfold record_access
  dsimp only
  split_ifs with hany
  · rfl
  · have hall : ∀ q ∈ st.cache, q.id ≠ qid := by
      intro q hq heq
      exact hany (List.any_eq_true.2 ⟨q, hq, by simp [heq]⟩)
    symm
    calc st.cache.map (fun q => if q.id = qid then bumpAccess now q else q)
        = st.cache.map id :=
          List.map_congr_left (fun q hq => by rw [if_neg (hall q hq)]; rfl)
      _ = st.cache := List.map_id _

theorem record_access_db_eq (now : ℕ) (qid qc : String) (st : CoreState)
    (hq : ∃ e ∈ st.cache, e.id = qid) :
    (record_access now qid qc st).db =
      st.db.map (fun r => if r.id = qid then bumpAccess now r else r) := by
  unfold record_access
  dsimp only
  rw [if_pos ?_]
  obtain ⟨e, he, heid⟩ := hq
  exact List.any_eq_true.2 ⟨e, he, by simp [heid]⟩

/-- Full characterisation of the cache loop of `search_memory_quantums`:
given pairwise-distinct ids (the dict invariant) and all iterated records
present in the cache, the final state bumps precisely the records whose id
belongs to a passing iterated record, on the cache AND on the database
rows, and the emitted results are exactly the passing records (field values
read before their own bump). -/
theorem searchLoop_state (now : ℕ) (θ : ℚ) (query_terms : List String)
    (query : String) (ctype : Option String) :
    ∀ (l : List MemoryQuantum) (st : CoreState),
    (l.map (·.id)).Nodup →
    (∀ x ∈ l, ∃ e ∈ st.cache, e.id = x.id) →
    (searchLoop now θ query_terms query ctype l st).2.cache =
      st.cache.map (fun e =>
        if e.id ∈ (l.filter (passesSearch now θ query_terms ctype)).map (·.id)
        then bumpAccess now e else e) ∧
    (searchLoop now θ query_terms query ctype l st).2.db =
      st.db.map (fun r =>
        if r.id ∈ (l.filter (passesSearch now θ query_terms ctype)).map (·.id)
        then bumpAccess now r else r) ∧
    (searchLoop now θ query_terms query ctype l st).1 =
      (l.filter (passesSearch now θ query_terms ctype)).map
        (fun q => mkResult (calculate_similarity now query_terms q) q) := by
  intro l
  induction l with
  | nil =>
    intro st _ _
    refine ⟨Eq.symm ?_, Eq.symm ?_, rfl⟩
    · exact (List.map_congr_left fun e _ => by simp).trans (List.map_id _)
    · exact (List.map_congr_left fun r _ => by simp).trans (List.map_id _)
  | cons q rest ih =>
    intro st hn hsub
    rw [List.map_cons, List.nodup_cons] at hn
    unfold searchLoop
    dsimp only
    split_ifs with hskip hsim
    · have hpass : passesSearch now θ query_terms ctype q = false := by
        simp [passesSearch, hskip]
      rw [List.filter_cons_of_neg (by simp [hpass])]
      exact ih st hn.2 (fun x hx => hsub x (List.mem_cons_of_mem _ hx))
    · have hpass : passesSearch now θ query_terms ctype q = true := by
        simp [passesSearch, hskip, hsim]
      rw [List.filter_cons_of_pos hpass]
      have hqid_not : q.id ∉
          (rest.filter (passesSearch now θ query_terms ctype)).map (·.id) := by
        intro hmem
        obtain ⟨x, hx, hxid⟩ := List.mem_map.1 hmem
        exact hn.1 (hxid ▸ List.mem_map_of_mem _ ((List.filter_sublist _).mem hx))
      have hsub1 : ∀ x ∈ rest, ∃ e ∈
          (record_access now q.id query st).cache, e.id = x.id := by
        intro x hx
        obtain ⟨e, he, heid⟩ := hsub x (List.mem_cons_of_mem _ hx)
        refine ⟨if e.id = q.id then bumpAccess now e else e, ?_, ?_⟩
        · rw [record_access_cache_eq]
          exact List.mem_map_of_mem _ he
        · split_ifs <;> simpa [bumpAccess] using heid
      obtain ⟨ihc, ihd, ihr⟩ := ih (record_access now q.id query st) hn.2 hsub1
      refine ⟨?_, ?_, ?_⟩
      · rw [ihc, record_access_cache_eq, List.map_map]
        refine List.map_congr_left fun e _ => ?_
        by_cases heq : e.id = q.id
        · simp [Function.comp, heq, hqid_not]
        · by_cases hm : e.id ∈
              (rest.filter (passesSearch now θ query_terms ctype)).map (·.id)
          · simp [Function.comp, heq, hm]
          · simp [Function.comp, heq, hm]
      · rw [ihd, record_access_db_eq now q.id query st
          (hsub q (List.mem_cons_self _ _)), List.map_map]
        refine List.map_congr_left fun r _ => ?_
        by_cases heq : r.id = q.id
        · simp [Function.comp, heq, hqid_not]
        · by_cases hm : r.id ∈
              (rest.filter (passesSearch now θ query_terms ctype)).map (·.id)
          · simp [Function.comp, heq, hm]
          · simp [Function.comp, heq, hm]
      · rw [List.map_cons, ← ihr]
    · have hpass : passesSearch now θ query_terms ctype q = false := by
        simp [passesSearch, hsim]
      rw [List.filter_cons_of_neg (by simp [hpass])]
      exact ih st hn.2 (fun x hx => hsub x (List.mem_cons_of_mem _ hx))

end MemoryQuantumCore

/-! ## Claim C4 -/

set_option maxHeartbeats 1000000 in
/-- Claim C4 (amended): a `search_memory_quantums` call applies the access
update (access_count += 1, last_accessed = now) to EXACTLY the cache
records that pass the type filter with similarity at or above the resolved
threshold — whether or not they make the returned `limit` — both in the
cache and on the matching database rows; records surfaced only by the
database scan receive no update. -/
theorem C4_search_access_side_effects (cfg : MemoryQuantumCore.Config)
    (now : ℕ) (query : String) (ctype : Option String) (limit : ℕ)
    (rthr : Option ℚ) (st : MemoryQuantumCore.CoreState)
    (hn : (st.cache.map (·.id)).Nodup) :
    (MemoryQuantumCore.search_memory_quantums cfg now query ctype limit rthr
        st).2.cache =
      st.cache.map (fun e =>
        if e.id ∈ (st.cache.filter (MemoryQuantumCore.passesSearch now
            (match rthr with
             | none => cfg.relevance_threshold
             | some t => if t = 0 then cfg.relevance_threshold else t)
            (distinct (splitWs (strLower query))) ctype)).map (·.id)
        then MemoryQuantumCore.bumpAccess now e else e) ∧
    (MemoryQuantumCore.search_memory_quantums cfg now query ctype limit rthr
        st).2.db =
      st.db.map (fun r =>
        if r.id ∈ (st.cache.filter (MemoryQuantumCore.passesSearch now
            (match rthr with
             | none => cfg.relevance_threshold
             | some t => if t = 0 then cfg.relevance_threshold else t)
            (distinct (splitWs (strLower query))) ctype)).map (·.id)
        then MemoryQuantumCore.bumpAccess now r else r) := by
  have h := MemoryQuantumCore.searchLoop_state now
    (match rthr with
     | none => cfg.relevance_threshold
     | some t => if t = 0 then cfg.relevance_threshold else t)
    (distinct (splitWs (strLower query))) query ctype st.cache st hn
    (fun x hx => ⟨x, hx, rfl⟩)
  unfold MemoryQuantumCore.search_memory_quantums
  dsimp only
  exact ⟨h.1, h.2.1⟩

/-- Record A of the C4 scenario: matches the query, high relevance. -/
def C4qA : MemoryQuantumCore.MemoryQuantum :=
  { id := "A", content := "hello", content_type := "general",
    relevance_score := 9/10, access_count := 0, created_at := 0,
    last_accessed := 0, tags := [], relationships := [], context_hash := "h",
    importance_weight := 1 }

/-- Record B of the C4 scenario: also matches the query, lower relevance,
so it is ranked below A and falls outside `limit = 1`. -/
def C4qB : MemoryQuantumCore.MemoryQuantum :=
  { id := "B", content := "hello", content_type := "general",
    relevance_score := 1/2, access_count := 0, created_at := 0,
    last_accessed := 0, tags := [], relationships := [], context_hash := "h",
    importance_weight := 1 }

/-- State for the C4 scenario: two matching cache records, empty table. -/
def C4st : MemoryQuantumCore.CoreState :=
  { cache := [C4qA, C4qB], db := [], access_patterns := [] }

/-- Counterexample to C4 as stated: searching `"hello"` with `limit = 1`
returns only record A, yet record B — NOT in the returned list — also has
its `access_count` incremented from 0 to 1, because the access update runs
for every threshold-passing cache record before the limit cut. -/
theorem C4_counterexample :
    ((MemoryQuantumCore.search_memory_quantums MemoryQuantumCore.defaultConfig
        0 "hello" none 1 none C4st).1.map (·.quantum_id) = ["A"])
    ∧ ((MemoryQuantumCore.search_memory_quantums MemoryQuantumCore.defaultConfig
        0 "hello" none 1 none C4st).2.cache.map
        (fun q => (q.id, q.access_count)) = [("A", 1), ("B", 1)]) := by
  constructor <;>
    norm_num +decide [MemoryQuantumCore.search_memory_quantums,
      MemoryQuantumCore.searchLoop, MemoryQuantumCore.record_access,
      MemoryQuantumCore.bumpAccess, MemoryQuantumCore.mkResult,
      MemoryQuantumCore.calculate_similarity, MemoryQuantumCore.ctypeSkips,
      MemoryQuantumCore.search_database, MemoryQuantumCore.defaultConfig,
      interCount, distinct, distinctAux, splitWs, runsBy, runsByAux,
      strLower, daysBetween, strContainsStr, jsonStrList,
      List.insertionSort, List.orderedInsert, C4st, C4qA, C4qB]

/-- Witness for the amended C4 at the concrete two-record state (the
distinct-ids hypothesis holds for `C4st`). -/
theorem C4_search_access_witness :
    ((C4st.cache.map (·.id)).Nodup) ∧
    ((MemoryQuantumCore.search_memory_quantums MemoryQuantumCore.defaultConfig
        0 "hello" none 1 none C4st).2.cache =
      C4st.cache.map (fun e =>
        if e.id ∈ (C4st.cache.filter (MemoryQuantumCore.passesSearch 0
            (match (none : Option ℚ) with
             | none => MemoryQuantumCore.defaultConfig.relevance_threshold
             | some t => if t = 0 then
                MemoryQuantumCore.defaultConfig.relevance_threshold else t)
            (distinct (splitWs (strLower "hello"))) none)).map (·.id)
        then MemoryQuantumCore.bumpAccess 0 e else e) ∧
    (MemoryQuantumCore.search_memory_quantums MemoryQuantumCore.defaultConfig
        0 "hello" none 1 none C4st).2.db =
      C4st.db.map (fun r =>
        if r.id ∈ (C4st.cache.filter (MemoryQuantumCore.passesSearch 0
            (match (none : Option ℚ) with
             | none => MemoryQuantumCore.defaultConfig.relevance_threshold
             | some t => if t = 0 then
                MemoryQuantumCore.defaultConfig.relevance_threshold else t)
            (distinct (splitWs (strLower "hello"))) none)).map (·.id)
        then MemoryQuantumCore.bumpAccess 0 r else r)) :=
  ⟨by decide,
   C4_search_access_side_effects MemoryQuantumCore.defaultConfig 0 "hello"
     none 1 none C4st (by decide)⟩

/-- Core environment for the C10 counterexample: distinct digests for the
two stored contents. -/
def C10env2 : MemoryQuantumCore.Env :=
  ⟨fun s => if s = "hello" then "aaaaaaaahash0001" else "bbbbbbbbhash0002"⟩

/-- State after storing `"hello"` (relevance 101/200, access_count 1). -/
def C10stA : MemoryQuantumCore.CoreState :=
  (MemoryQuantumCore.store_memory_quantum C10env2 MemoryQuantumCore.defaultConfig
    0 "20250101_000000_000000" "hello" "general" [] "ch" ⟨[], [], []⟩).2

/-- State after also storing `"hello there"` (relevance 511/1000, so it
outranks the first record in the search ordering). -/
def C10stB : MemoryQuantumCore.CoreState :=
  (MemoryQuantumCore.store_memory_quantum C10env2 MemoryQuantumCore.defaultConfig
    0 "20250102_000000_000000" "hello there" "general" [] "ch" C10stA).2

/-- Result and post-state of searching `"hello"` with `limit = 1` on the
two-record store: both records pass the threshold and are access-bumped,
but only the higher-ranked second record is returned. -/
def C10out : List MemoryQuantumCore.SearchResult × MemoryQuantumCore.CoreState :=
  MemoryQuantumCore.search_memory_quantums MemoryQuantumCore.defaultConfig 0
    "hello" none 1 none C10stB

/-- The first stored record as it sits in `C10stB` (relevance 101/200,
access_count 1). -/
def C10q1 : MemoryQuantumCore.MemoryQuantum :=
  { id := "mq_20250101_000000_000000_aaaaaaaa", content := "hello",
    content_type := "general", relevance_score := 101/200, access_count := 1,
    created_at := 0, last_accessed := 0, tags := [], relationships := [],
    context_hash := "ch", importance_weight := 1 }

/-- The second stored record as it sits in `C10stB` (relevance 511/1000,
access_count 1). -/
def C10q2 : MemoryQuantumCore.MemoryQuantum :=
  { id := "mq_20250102_000000_000000_bbbbbbbb", content := "hello there",
    content_type := "general", relevance_score := 511/1000, access_count := 1,
    created_at := 0, last_accessed := 0, tags := [], relationships := [],
    context_hash := "ch", importance_weight := 1 }

/-- Counterexample to C10 as stated: after storing two matching records and
searching once with `limit = 1`, the first record was never in any returned
result list, yet its `access_count` is 2 (not `< 2`), and
`cleanup_low_relevance` with threshold 1 — far above its relevance
101/200 — deletes nothing: the never-returned record is no longer eligible
for deletion, because the search's access update also bumps
threshold-passing records outside the limit. -/
theorem C10_counterexample :
    (C10out.1.map (·.quantum_id) = ["mq_20250102_000000_000000_bbbbbbbb"])
    ∧ ((MemoryQuantumCore.cleanup_low_relevance 1 C10out.2).1 = 0)
    ∧ ((MemoryQuantumCore.cleanup_low_relevance 1 C10out.2).2.db.map
        (fun r => (r.id, r.access_count)) =
      [("mq_20250101_000000_000000_aaaaaaaa", 2),
       ("mq_20250102_000000_000000_bbbbbbbb", 2)]) := by
  have hA : C10stA = { cache := [C10q1], db := [C10q1], access_patterns := [] } := by
    norm_num +decide [C10stA, C10env2, C10q1,
      MemoryQuantumCore.store_memory_quantum,
      MemoryQuantumCore.calculate_initial_relevance,
      MemoryQuantumCore.type_multiplier, MemoryQuantumCore.cacheInsert,
      MemoryQuantumCore.dbUpsert, MemoryQuantumCore.defaultConfig, strTake,
      String.length, min_def]
  have hB : C10stB =
      { cache := [C10q1, C10q2], db := [C10q1, C10q2], access_patterns := [] } := by
    norm_num +decide [C10stB, hA, C10env2, C10q1, C10q2,
      MemoryQuantumCore.store_memory_quantum,
      MemoryQuantumCore.calculate_initial_relevance,
      MemoryQuantumCore.type_multiplier, MemoryQuantumCore.cacheInsert,
      MemoryQuantumCore.dbUpsert, MemoryQuantumCore.defaultConfig, strTake,
      String.length, min_def]
  have hOut : C10out =
      ([MemoryQuantumCore.mkResult (4/5) C10q2],
       { cache := [MemoryQuantumCore.bumpAccess 0 C10q1,
                   MemoryQuantumCore.bumpAccess 0 C10q2],
         db := [MemoryQuantumCore.bumpAccess 0 C10q1,
                MemoryQuantumCore.bumpAccess 0 C10q2],
         access_patterns := [("mq_20250101_000000_000000_aaaaaaaa", 0, "hello"),
                             ("mq_20250102_000000_000000_bbbbbbbb", 0, "hello")] }) := by
    rw [C10out, hB]
    norm_num +decide [C10q1, C10q2,
      MemoryQuantumCore.search_memory_quantums, MemoryQuantumCore.searchLoop,
      MemoryQuantumCore.record_access, MemoryQuantumCore.bumpAccess,
      MemoryQuantumCore.mkResult, MemoryQuantumCore.calculate_similarity,
      MemoryQuantumCore.ctypeSkips, MemoryQuantumCore.search_database,
      MemoryQuantumCore.defaultConfig, strLower, splitWs, runsBy, runsByAux,
      distinct, distinctAux, interCount, daysBetween, strContainsStr,
      jsonStrList, List.insertionSort, List.orderedInsert, min_def, max_def]
  refine ⟨?_, ?_, ?_⟩ <;>
    norm_num [hOut, C10q1, C10q2, MemoryQuantumCore.mkResult,
      MemoryQuantumCore.bumpAccess, MemoryQuantumCore.cleanup_low_relevance]
